import Mathlib

/-!
Verification development for the NZC session data collection portal
(app.py).  The Python code is shallowly embedded: request payload values
become the inductive type PyVal (the JSON payloads the handlers read
contain null, string and integer values at the fields the code touches),
dictionaries become a structure of optional fields, exceptions become
Except, the SQLite store becomes an explicit World state, and calendar
dates become day numbers with the standard civil-calendar conversion.
-/

/-- A Python runtime value as it can appear in the JSON request payload at
the fields the code reads: null, a string, or an integer. -/
inductive PyVal where
  | vNone
  | vStr (s : String)
  | vInt (n : Int)
deriving DecidableEq, Repr

/-- Python exceptions that validate_session_data and the request handlers
can raise while computing (all other exception sources are caught in the
source and turned into messages). -/
inductive PyErr where
  | attributeError
  | typeError
  | keyError
  | valueError
deriving DecidableEq, Repr

deriving instance DecidableEq for Except

/-- Python truthiness for the embedded values: None is falsy, a string is
truthy iff nonempty, an int is truthy iff nonzero. -/
def pyTruthy : PyVal → Bool
  | .vNone => false
  | .vStr s => !(s == "")
  | .vInt n => !(n == 0)

/-- The characters Python str.strip() removes by default (ASCII subset). -/
def pyIsSpace (c : Char) : Bool :=
  c == ' ' || c == '\t' || c == '\n' || c == '\r' || c == '\x0b' || c == '\x0c'

/-- Python str.strip() on a string: drop leading and trailing whitespace. -/
def pyStripS (s : String) : String :=
  String.mk ((((s.toList.dropWhile pyIsSpace).reverse).dropWhile pyIsSpace).reverse)

/-- Python str() of an embedded value. -/
def pyStr : PyVal → String
  | .vNone => "None"
  | .vStr s => s
  | .vInt n => toString n

/-- Python value.strip(): only strings have a strip method; calling it on
None or an int raises AttributeError. -/
def pyStripE : PyVal → Except PyErr String
  | .vStr s => .ok (pyStripS s)
  | _ => .error .attributeError

/-- Python len(value): defined for strings (code points); len of None or
an int raises TypeError. -/
def pyLenE : PyVal → Except PyErr Nat
  | .vStr s => .ok s.length
  | _ => .error .typeError

/-- Digit value of an ASCII digit character. -/
def digitVal (c : Char) : Nat := c.toNat - 48

/-- Digit run for Python int(): one or more ASCII digits with single
underscores allowed between digits, as int() accepts. Returns the value. -/
def digitsRun : Nat → List Char → Option Nat
  | acc, [] => some acc
  | acc, '_' :: c :: rest =>
      if c.isDigit then digitsRun (acc * 10 + digitVal c) rest else none
  | acc, c :: rest =>
      if c.isDigit then digitsRun (acc * 10 + digitVal c) rest else none

/-- Python int(string): strip whitespace, optional sign, digit run.
Returns none where int() raises ValueError. -/
def parseIntStr (s : String) : Option Int :=
  match (pyStripS s).toList with
  | '+' :: c :: rest =>
      if c.isDigit then (digitsRun (digitVal c) rest).map (fun n => (n : Int)) else none
  | '-' :: c :: rest =>
      if c.isDigit then (digitsRun (digitVal c) rest).map (fun n => -(n : Int)) else none
  | c :: rest =>
      if c.isDigit then (digitsRun (digitVal c) rest).map (fun n => (n : Int)) else none
  | [] => none

/-- Python int(value) under the try blocks of the validator: int of an int
is itself, int of a string parses, int of None raises TypeError; both
ValueError and TypeError are caught at the call sites, so the failure is
collapsed to none. -/
def pyIntOpt : PyVal → Option Int
  | .vInt n => some n
  | .vStr s => parseIntStr s
  | .vNone => none

/-- Fraction part digits for float(): digits only, value and count. -/
def fracRun : Rat → Rat → List Char → Option Rat
  | acc, _, [] => some acc
  | acc, scale, c :: rest =>
      if c.isDigit then
        fracRun (acc + (digitVal c : Rat) / scale) (scale * 10) rest
      else none

/-- Integer-part loop for float() parsing. -/
def parseUnsignedFloatInt : Nat → List Char → Option Rat
  | acc, [] => some (acc : Rat)
  | acc, '.' :: rest =>
      match rest with
      | [] => some (acc : Rat)
      | c :: rest2 =>
          if c.isDigit then
            (fracRun ((digitVal c : Rat) / 10) 100 rest2).map (fun f => (acc : Rat) + f)
          else none
  | acc, c :: rest =>
      if c.isDigit then parseUnsignedFloatInt (acc * 10 + digitVal c) rest else none

/-- Unsigned decimal for float(): digits [. digits] or . digits. -/
def parseUnsignedFloat : List Char → Option Rat
  | [] => none
  | '.' :: c :: rest =>
      if c.isDigit then fracRun ((digitVal c : Rat) / 10) 100 rest else none
  | c :: rest =>
      if c.isDigit then parseUnsignedFloatInt (digitVal c) rest else none

/-- Python float(string) over plain decimal literals (optional sign,
digits, optional fraction): the forms the latitude and longitude fields
can carry.  Exponent forms, inf and nan are outside the modelled payload
grammar. Returns none where float() raises ValueError. -/
def parseFloatStr (s : String) : Option Rat :=
  match (pyStripS s).toList with
  | '+' :: rest => parseUnsignedFloat rest
  | '-' :: rest => (parseUnsignedFloat rest).map (fun x => -x)
  | rest => parseUnsignedFloat rest

/-- Python float(value) under the try blocks: float of an int widens, a
string parses, None raises TypeError; ValueError and TypeError are caught
at the call sites, so failure collapses to none. -/
def pyFloatOpt : PyVal → Option Rat
  | .vInt n => some (n : Rat)
  | .vStr s => parseFloatStr s
  | .vNone => none

/-- Python str.title(): uppercase each letter that follows a non-letter,
lowercase the rest. -/
def pyTitleGo : List Char → Bool → List Char
  | [], _ => []
  | c :: rest, prevAlpha =>
      (if prevAlpha then c.toLower else c.toUpper) :: pyTitleGo rest c.isAlpha

/-- Python str.title() on a string. -/
def pyTitle (s : String) : String := String.mk (pyTitleGo s.toList false)

/-- Python str.replace applied to single characters, as in
field.replace(underscore, space). -/
def replaceChar (s : String) (a b : Char) : String :=
  String.mk (s.toList.map (fun c => if c == a then b else c))

/-! ## Civil calendar

Dates are represented as day numbers counted from 0000-03-01 of the
proleptic Gregorian calendar (Python datetime dates all have year at
least 1, hence positive day numbers).  The conversions below are the
standard civil-from-days and days-from-civil computations. -/

structure Ymd where
  y : Nat
  m : Nat
  d : Nat
deriving DecidableEq, Repr

def isLeap (y : Nat) : Bool := (y % 4 == 0 && y % 100 != 0) || y % 400 == 0

def daysInMonth (y m : Nat) : Nat :=
  if m == 2 then (if isLeap y then 29 else 28)
  else if m == 4 || m == 6 || m == 9 || m == 11 then 30
  else 31

/-- Day number of a calendar date, counted from 0000-03-01. -/
def daysFromCivil (y m d : Nat) : Nat :=
  let yAdj := if m ≤ 2 then y - 1 else y
  let era := yAdj / 400
  let yoe := yAdj % 400
  let mp := if 3 ≤ m then m - 3 else m + 9
  let doy := (153 * mp + 2) / 5 + (d - 1)
  let doe := yoe * 365 + yoe / 4 - yoe / 100 + doy
  era * 146097 + doe

/-- Calendar date of a day number. -/
def civilFromDays (z : Nat) : Ymd :=
  let era := z / 146097
  let doe := z % 146097
  let yoe := (doe - doe / 1460 + doe / 36524 - doe / 146096) / 365
  let y := yoe + era * 400
  let doy := doe - (365 * yoe + yoe / 4 - yoe / 100)
  let mp := (5 * doy + 2) / 153
  let d := doy - (153 * mp + 2) / 5 + 1
  let m := if mp < 10 then mp + 3 else mp - 9
  ⟨if m ≤ 2 then y + 1 else y, m, d⟩

def pad2 (n : Nat) : String :=
  if n < 10 then "0" ++ toString n else toString n

def pad4 (n : Nat) : String :=
  if n < 10 then "000" ++ toString n
  else if n < 100 then "00" ++ toString n
  else if n < 1000 then "0" ++ toString n
  else toString n

/-- strftime with the year-month-day format on a day number (zero padded,
as Python pads). -/
def fmtDay (z : Nat) : String :=
  let c := civilFromDays z
  pad4 c.y ++ "-" ++ pad2 c.m ++ "-" ++ pad2 c.d

/-- strftime with the abbreviated-weekday format on a day number (C locale
names, as Python defaults). Day 0 of the epoch, 0000-03-01, falls on a
Wednesday. -/
def dayName (z : Nat) : String :=
  (["Sun", "Mon", "Tue", "Wed", "Thu", "Fri", "Sat"].getD ((z + 3) % 7) "")

example : daysFromCivil 1970 1 1 = 719468 := by decide
example : dayName (daysFromCivil 1970 1 1) = "Thu" := by decide
example : civilFromDays (daysFromCivil 2025 1 16) = ⟨2025, 1, 16⟩ := by decide
example : civilFromDays (daysFromCivil 2024 2 29) = ⟨2024, 2, 29⟩ := by decide
example : civilFromDays (daysFromCivil 2019 12 31) = ⟨2019, 12, 31⟩ := by decide
example : fmtDay (daysFromCivil 2025 6 5) = "2025-06-05" := by decide
example : dayName (daysFromCivil 2025 1 16) = "Thu" := by decide

/-! ## strptime

datetime.strptime with the year-month-day format matches the year as
exactly four digits, month as the regex alternation 1[0-2] or 0[1-9] or
[1-9], day as 3[01] or [12] digit or 0[1-9] or [1-9], requires the whole
string consumed, and then datetime validates the resulting date (year at
least 1, day within the month). -/

/-- Month token of strptime: ordered regex alternation on the char list;
returns the month value and the remaining input. -/
def monthTok : List Char → Option (Nat × List Char)
  | '1' :: c :: rest =>
      if '0' ≤ c && c ≤ '2' then some (10 + digitVal c, rest) else some (1, c :: rest)
  | ['1'] => some (1, [])
  | '0' :: c :: rest =>
      if '1' ≤ c && c ≤ '9' then some (digitVal c, rest) else none
  | [c] => if '2' ≤ c && c ≤ '9' then some (digitVal c, []) else none
  | c :: rest => if '2' ≤ c && c ≤ '9' then some (digitVal c, rest) else none
  | [] => none

/-- Day token of strptime: ordered regex alternation on the char list. -/
def dayTok : List Char → Option (Nat × List Char)
  | '3' :: c :: rest =>
      if c == '0' || c == '1' then some (30 + digitVal c, rest) else some (3, c :: rest)
  | '1' :: c :: rest =>
      if c.isDigit then some (10 + digitVal c, rest) else some (1, c :: rest)
  | '2' :: c :: rest =>
      if c.isDigit then some (20 + digitVal c, rest) else some (2, c :: rest)
  | '0' :: c :: rest =>
      if '1' ≤ c && c ≤ '9' then some (digitVal c, rest) else none
  | [c] => if '1' ≤ c && c ≤ '9' then some (digitVal c, []) else none
  | c :: rest => if '4' ≤ c && c ≤ '9' then some (digitVal c, rest) else none
  | [] => none

/-- strptime on the year-month-day format, with the datetime range checks;
none where strptime or the datetime constructor raises ValueError. -/
def parseYmd (s : String) : Option Ymd :=
  match s.toList with
  | y1 :: y2 :: y3 :: y4 :: '-' :: rest =>
      if y1.isDigit && y2.isDigit && y3.isDigit && y4.isDigit then
        let y := ((digitVal y1 * 10 + digitVal y2) * 10 + digitVal y3) * 10 + digitVal y4
        match monthTok rest with
        | some (m, '-' :: rest2) =>
            match dayTok rest2 with
            | some (d, []) =>
                if 1 ≤ y && 1 ≤ d && d ≤ daysInMonth y m then some ⟨y, m, d⟩ else none
            | _ => none
        | _ => none
      else none
  | _ => none

example : parseYmd "2025-01-16" = some ⟨2025, 1, 16⟩ := by decide
example : parseYmd "2025-1-1" = some ⟨2025, 1, 1⟩ := by decide
example : parseYmd "2025-13-01" = none := by decide
example : parseYmd "2025-02-30" = none := by decide
example : parseYmd "2024-02-29" = some ⟨2024, 2, 29⟩ := by decide
example : parseYmd "25-01-16" = none := by decide
example : parseYmd "2025-01-16x" = none := by decide
example : parseYmd "0000-01-16" = none := by decide

/-! ## The request payload mapping

The create and update payload is a JSON mapping; the validator touches the
twelve known field names via dict.get, so the mapping is embedded as a
structure of optional values (none means the key is absent, some vNone
means the key maps to null).  The extra flag records whether the mapping
carries any unrelated keys, which matters only for its truthiness in
create_session. -/

inductive FieldId where
  | school_name
  | session_type
  | location
  | activator
  | year_group
  | male_participants
  | female_participants
  | session_date
  | session_duration
  | teacher_feedback
  | latitude
  | longitude
deriving DecidableEq, Repr

structure Data where
  school_name : Option PyVal := none
  session_type : Option PyVal := none
  location : Option PyVal := none
  activator : Option PyVal := none
  year_group : Option PyVal := none
  male_participants : Option PyVal := none
  female_participants : Option PyVal := none
  session_date : Option PyVal := none
  session_duration : Option PyVal := none
  teacher_feedback : Option PyVal := none
  latitude : Option PyVal := none
  longitude : Option PyVal := none
  extra : Bool := false
deriving DecidableEq, Repr

def Data.get (d : Data) : FieldId → Option PyVal
  | .school_name => d.school_name
  | .session_type => d.session_type
  | .location => d.location
  | .activator => d.activator
  | .year_group => d.year_group
  | .male_participants => d.male_participants
  | .female_participants => d.female_participants
  | .session_date => d.session_date
  | .session_duration => d.session_duration
  | .teacher_feedback => d.teacher_feedback
  | .latitude => d.latitude
  | .longitude => d.longitude

/-- dict.get(field): absent keys give None. -/
def pyGetD (d : Data) (f : FieldId) : PyVal := (d.get f).getD .vNone

/-- dict.get(field, default): absent keys give the default. -/
def pyGetD2 (d : Data) (f : FieldId) (dflt : PyVal) : PyVal := (d.get f).getD dflt

/-- Python truthiness of the whole mapping: a dict is truthy iff nonempty. -/
def dataNonempty (d : Data) : Bool :=
  d.extra || d.school_name.isSome || d.session_type.isSome || d.location.isSome ||
  d.activator.isSome || d.year_group.isSome || d.male_participants.isSome ||
  d.female_participants.isSome || d.session_date.isSome || d.session_duration.isSome ||
  d.teacher_feedback.isSome || d.latitude.isSome || d.longitude.isSome

def fieldName : FieldId → String
  | .school_name => "school_name"
  | .session_type => "session_type"
  | .location => "location"
  | .activator => "activator"
  | .year_group => "year_group"
  | .male_participants => "male_participants"
  | .female_participants => "female_participants"
  | .session_date => "session_date"
  | .session_duration => "session_duration"
  | .teacher_feedback => "teacher_feedback"
  | .latitude => "latitude"
  | .longitude => "longitude"

/-! ## validate_session_data

Each stanza of the source function becomes one definition below; the
whole validator sequences them in source order.  Stanzas that can raise
(those calling strip, len or strptime on a raw value) return Except; the
others are pure lists of messages. -/

def requiredFields : List FieldId :=
  [.school_name, .session_type, .location, .activator, .year_group,
   .male_participants, .female_participants, .session_date, .session_duration]

/-- The message text for a missing required field: underscores become
spaces, then title case, then the required suffix. -/
def reqMsg (f : FieldId) : String :=
  pyTitle (replaceChar (fieldName f) '_' ' ') ++ " is required"

/-- The condition of the required-fields loop: not data.get(field), or
str of it strips to empty. -/
def reqCond (d : Data) (f : FieldId) : Bool :=
  !pyTruthy (pyGetD d f) || pyStripS (pyStr (pyGetD d f)) == ""

/-- The required-fields loop, appending one message per failing field in
declaration order. -/
def reqErrs (d : Data) : List String :=
  requiredFields.filterMap (fun f => if reqCond d f then some (reqMsg f) else none)

/-- School name stanza: length bounds on the stripped string; strip on a
truthy non-string raises AttributeError. -/
def schoolErrs (d : Data) : Except PyErr (List String) :=
  let v := pyGetD d .school_name
  if pyTruthy v then
    match pyStripE v with
    | .error e => .error e
    | .ok s =>
        .ok ((if s.length < 2 then ["School name must be at least 2 characters long"] else []) ++
             (if s.length > 100 then ["School name must be less than 100 characters"] else []))
  else .ok []

/-- Session type stanza. -/
def typeErrs (d : Data) : Except PyErr (List String) :=
  let v := pyGetD d .session_type
  if pyTruthy v then
    match pyStripE v with
    | .error e => .error e
    | .ok s =>
        .ok ((if s.length < 2 then ["Session type must be at least 2 characters long"] else []) ++
             (if s.length > 50 then ["Session type must be less than 50 characters"] else []))
  else .ok []

/-- Location stanza. -/
def locationErrs (d : Data) : Except PyErr (List String) :=
  let v := pyGetD d .location
  if pyTruthy v then
    match pyStripE v with
    | .error e => .error e
    | .ok s =>
        .ok ((if s.length < 2 then ["Location must be at least 2 characters long"] else []) ++
             (if s.length > 100 then ["Location must be less than 100 characters"] else []))
  else .ok []

/-- The activator name character class: letters, whitespace, hyphen,
period; the regex needs at least one character and must cover the whole
stripped string. -/
def activatorPat (s : String) : Bool :=
  !(s == "") && s.toList.all (fun c => c.isAlpha || pyIsSpace c || c == '-' || c == '.')

/-- Activator stanza: length bounds and the character-class regex. -/
def activatorErrs (d : Data) : Except PyErr (List String) :=
  let v := pyGetD d .activator
  if pyTruthy v then
    match pyStripE v with
    | .error e => .error e
    | .ok s =>
        .ok ((if s.length < 2 then ["Activator name must be at least 2 characters long"] else []) ++
             (if s.length > 50 then ["Activator name must be less than 50 characters"] else []) ++
             (if !activatorPat s then
                ["Activator name can only contain letters, spaces, hyphens, and periods"]
              else []))
  else .ok []

def validYearGroups : List String :=
  ["Year 1-2", "Year 3-4", "Year 5-6", "Year 7-8", "Year 9-10", "Year 11-13", "Mixed"]

/-- Python membership of a payload value in a list of strings: equality
across types is false, so only string values can be members. -/
def pyValInStrs (v : PyVal) (l : List String) : Bool :=
  match v with
  | .vStr s => l.contains s
  | _ => false

/-- Year group stanza. -/
def yearErrs (d : Data) : List String :=
  let v := pyGetD d .year_group
  if pyTruthy v && !pyValInStrs v validYearGroups then
    ["Please select a valid year group"]
  else []

/-- Male participants stanza: the try block catches ValueError and
TypeError from int(), so a non-parsing value yields the single type
message; otherwise the two range checks run. -/
def maleErrs (d : Data) : List String :=
  match pyIntOpt (pyGetD2 d .male_participants (.vInt 0)) with
  | some m =>
      (if m < 0 then ["Male participants cannot be negative"] else []) ++
      (if m > 1000 then ["Male participants seems too high (max 1000)"] else [])
  | none => ["Male participants must be a valid number"]

/-- Female participants stanza. -/
def femaleErrs (d : Data) : List String :=
  match pyIntOpt (pyGetD2 d .female_participants (.vInt 0)) with
  | some f =>
      (if f < 0 then ["Female participants cannot be negative"] else []) ++
      (if f > 1000 then ["Female participants seems too high (max 1000)"] else [])
  | none => ["Female participants must be a valid number"]

/-- Total participants stanza: re-parses both counts; if either raises,
the except clause passes silently. -/
def totalErrs (d : Data) : List String :=
  match pyIntOpt (pyGetD2 d .male_participants (.vInt 0)),
        pyIntOpt (pyGetD2 d .female_participants (.vInt 0)) with
  | some m, some f =>
      (if m + f == 0 then ["Total participants must be greater than 0"] else []) ++
      (if m + f > 2000 then ["Total participants seems too high (max 2000)"] else [])
  | _, _ => []

/-- Session duration stanza. -/
def durationErrs (d : Data) : List String :=
  match pyIntOpt (pyGetD2 d .session_duration (.vInt 0)) with
  | some dur =>
      (if dur ≤ 0 then ["Session duration must be greater than 0 minutes"] else []) ++
      (if dur > 480 then ["Session duration seems too long (max 8 hours)"] else [])
  | none => ["Session duration must be a valid number"]

def epoch2020 : Nat := daysFromCivil 2020 1 1

/-- Session date stanza: strptime on a truthy non-string raises TypeError,
which the except ValueError clause does not catch; a parse failure yields
the format message and suppresses the range checks.  Comparing the parsed
midnight datetime against now is equivalent to comparing day numbers
against the current date, so the stanza takes the current day number. -/
def dateErrs (today : Nat) (d : Data) : Except PyErr (List String) :=
  let v := pyGetD d .session_date
  if pyTruthy v then
    match v with
    | .vStr s =>
        match parseYmd s with
        | some ymd =>
            let z := daysFromCivil ymd.y ymd.m ymd.d
            .ok ((if z > today then ["Session date cannot be in the future"] else []) ++
                 (if z < epoch2020 then ["Session date seems too old"] else []))
        | none => .ok ["Please provide a valid session date"]
    | _ => .error .typeError
  else .ok []

/-- Latitude stanza: float() failures are caught; a parsed value gets the
single range check. -/
def latErrs (d : Data) : List String :=
  let v := pyGetD d .latitude
  if pyTruthy v then
    match pyFloatOpt v with
    | some x => if x < -90 || x > 90 then ["Latitude must be between -90 and 90"] else []
    | none => ["Latitude must be a valid number"]
  else []

/-- Longitude stanza. -/
def lngErrs (d : Data) : List String :=
  let v := pyGetD d .longitude
  if pyTruthy v then
    match pyFloatOpt v with
    | some x => if x < -180 || x > 180 then ["Longitude must be between -180 and 180"] else []
    | none => ["Longitude must be a valid number"]
  else []

/-- Teacher feedback stanza: the and in the source short-circuits, so len
runs only on truthy values; len of a truthy non-string raises TypeError. -/
def feedbackErrs (d : Data) : Except PyErr (List String) :=
  let v := pyGetD d .teacher_feedback
  if pyTruthy v then
    match pyLenE v with
    | .error e => .error e
    | .ok n => .ok (if n > 1000 then ["Teacher feedback must be less than 1000 characters"] else [])
  else .ok []

/-- validate_session_data: the stanzas in source order, accumulating
messages; the first raising stanza aborts the whole computation with its
exception, exactly as in Python. -/
def validate_session_data (today : Nat) (d : Data) : Except PyErr (List String) :=
  match schoolErrs d with
  | .error e => .error e
  | .ok a2 =>
  match typeErrs d with
  | .error e => .error e
  | .ok a3 =>
  match locationErrs d with
  | .error e => .error e
  | .ok a4 =>
  match activatorErrs d with
  | .error e => .error e
  | .ok a5 =>
  match dateErrs today d with
  | .error e => .error e
  | .ok a11 =>
  match feedbackErrs d with
  | .error e => .error e
  | .ok a14 =>
  .ok (reqErrs d ++ a2 ++ a3 ++ a4 ++ a5 ++ yearErrs d ++ maleErrs d ++ femaleErrs d ++
       totalErrs d ++ durationErrs d ++ a11 ++ latErrs d ++ lngErrs d ++ a14)

/-! ## The persisted store

The SQLite database and the uploads directory become an explicit World
value: the sessions table, the session_photos table, the set of stored
photo files, and the autoincrement counters.  The session_photos table
declares a foreign key with on-delete cascade, but the sqlite3
connections in the source never execute a pragma enabling foreign key
enforcement, and SQLite leaves it off by default, so the cascade clause
never fires; the embedding reflects exactly that. -/

/-- A row of the sessions table.  Text columns hold the inserted strings;
the year_group and session_date columns store the text form of the
inserted value (TEXT and NUMERIC affinity keep validated payloads as
their string form). -/
structure Session where
  id : Nat
  school_name : String
  session_type : String
  location : String
  activator : String
  year_group : String
  male_participants : Int
  female_participants : Int
  teacher_feedback : Option String
  session_date : String
  session_duration : Int
  date_created : String
  latitude : Option Rat
  longitude : Option Rat
deriving DecidableEq, Repr

/-- A row of the session_photos table (the upload_date column, unused by
the claims, is omitted). -/
structure Photo where
  id : Nat
  session_id : Nat
  filename : String
  original_filename : String
  file_path : String
  file_size : Nat
deriving DecidableEq, Repr

/-- The store plus blob storage: session rows, photo rows, the paths of
files existing on disk, and the table autoincrement counters. -/
structure World where
  sessions : List Session := []
  photos : List Photo := []
  fs : List String := []
  nextSessionId : Nat := 1
  nextPhotoId : Nat := 1
deriving DecidableEq, Repr

/-- Writing a file: creates the path if absent (overwriting leaves the
path set unchanged). -/
def fsSave (fs : List String) (p : String) : List String :=
  if fs.contains p then fs else fs ++ [p]

/-- os.remove guarded by os.path.exists with OSError swallowed: the path
is simply gone afterwards. -/
def removeFile (fs : List String) (p : String) : List String :=
  fs.filter (fun q => !(q == p))

/-- SQLite binary collation on the stored text values: bytewise order,
which on the code-point lists coincides with lexicographic order. -/
def chLe : List Char → List Char → Bool
  | [], _ => true
  | _ :: _, [] => false
  | a :: as, b :: bs => if a < b then true else if b < a then false else chLe as bs

def sqliteTextLe (a b : String) : Bool := chLe a.toList b.toList

/-! ## create_session -/

/-- The tuple of values the insert statement computes from the payload:
strips on the text fields, int() on the counts and duration, optional
strip on the feedback, optional float() on the coordinates.  Any raise
here is caught by the handler's outer try and reported as a server
error.  Direct subscripts raise KeyError on absent keys; int() and
float() failures raise ValueError. -/
def rowOfData (d : Data) (newId : Nat) (created : String) : Except PyErr Session :=
  match d.school_name with
  | none => .error .keyError
  | some vSchool =>
  match pyStripE vSchool with
  | .error e => .error e
  | .ok school =>
  match d.session_type with
  | none => .error .keyError
  | some vType =>
  match pyStripE vType with
  | .error e => .error e
  | .ok stype =>
  match d.location with
  | none => .error .keyError
  | some vLoc =>
  match pyStripE vLoc with
  | .error e => .error e
  | .ok loc =>
  match d.activator with
  | none => .error .keyError
  | some vAct =>
  match pyStripE vAct with
  | .error e => .error e
  | .ok act =>
  match d.year_group with
  | none => .error .keyError
  | some vYear =>
  match d.male_participants with
  | none => .error .keyError
  | some vMale =>
  match pyIntOpt vMale with
  | none => .error .valueError
  | some male =>
  match d.female_participants with
  | none => .error .keyError
  | some vFemale =>
  match pyIntOpt vFemale with
  | none => .error .valueError
  | some female =>
  match (if pyTruthy (pyGetD d .teacher_feedback) then
           (pyStripE (pyGetD2 d .teacher_feedback (.vStr ""))).map some
         else .ok none) with
  | .error e => .error e
  | .ok feedback =>
  match d.session_date with
  | none => .error .keyError
  | some vDate =>
  match d.session_duration with
  | none => .error .keyError
  | some vDur =>
  match pyIntOpt vDur with
  | none => .error .valueError
  | some dur =>
  match (if pyTruthy (pyGetD d .latitude) then
           match pyFloatOpt (pyGetD d .latitude) with
           | some x => .ok (some x)
           | none => .error .valueError
         else .ok none : Except PyErr (Option Rat)) with
  | .error e => .error e
  | .ok lat =>
  match (if pyTruthy (pyGetD d .longitude) then
           match pyFloatOpt (pyGetD d .longitude) with
           | some x => .ok (some x)
           | none => .error .valueError
         else .ok none : Except PyErr (Option Rat)) with
  | .error e => .error e
  | .ok lng =>
  .ok { id := newId, school_name := school, session_type := stype, location := loc,
        activator := act, year_group := pyStr vYear, male_participants := male,
        female_participants := female, teacher_feedback := feedback,
        session_date := pyStr vDate, session_duration := dur, date_created := created,
        latitude := lat, longitude := lng }

/-- Response of the create endpoint: created with the new row id, a
client rejection with the error list (HTTP 400), or the catch-all server
error (HTTP 500). -/
inductive CreateResp where
  | created (session_id : Nat)
  | invalid (errors : List String)
  | serverError (e : PyErr)
deriving DecidableEq, Repr

/-- create_session: reject a falsy payload, validate, reject on messages,
otherwise insert one row and commit.  The created timestamp column is
filled by the database clock, passed here as a parameter. -/
def create_session (today : Nat) (d : Data) (created : String) (w : World) :
    CreateResp × World :=
  if !dataNonempty d then (.invalid ["No data provided"], w)
  else
    match validate_session_data today d with
    | .error e => (.serverError e, w)
    | .ok es =>
        if !es.isEmpty then (.invalid es, w)
        else
          match rowOfData d w.nextSessionId created with
          | .error e => (.serverError e, w)
          | .ok row =>
              (.created w.nextSessionId,
               { w with sessions := w.sessions ++ [row],
                        nextSessionId := w.nextSessionId + 1 })

/-! ## get_sessions -/

/-- The photo-count aggregate of the left join grouped by session id:
count of joined photo rows with matching session_id (zero when only the
null-extended row exists). -/
def photoCountFor (photos : List Photo) (sid : Nat) : Nat :=
  (photos.filter (fun p => p.session_id == sid)).length

/-- One record of the listing response. -/
structure ApiSession where
  id : Nat
  school_name : String
  session_type : String
  location : String
  activator : String
  year_group : String
  male_participants : Int
  female_participants : Int
  teacher_feedback : Option String
  session_date : String
  session_duration : Int
  date_created : String
  latitude : Option Rat
  longitude : Option Rat
  photo_count : Nat
  total_participants : Int
deriving DecidableEq, Repr

/-- The order-by comparator: session_date descending, then date_created
descending. -/
def sessionOrd (a b : Session) : Bool :=
  if a.session_date == b.session_date then sqliteTextLe b.date_created a.date_created
  else sqliteTextLe b.session_date a.session_date

def insertSorted (s : Session) : List Session → List Session
  | [] => [s]
  | t :: ts => if sessionOrd s t then s :: t :: ts else t :: insertSorted s ts

/-- The order-by clause, realised as an insertion sort with the
comparator above. -/
def orderSessions (l : List Session) : List Session :=
  l.foldr insertSorted []

/-- get_sessions: every session row, ordered, each carrying the
photo-count aggregate and the derived total of both participant counts. -/
def get_sessions (w : World) : List ApiSession :=
  (orderSessions w.sessions).map (fun s =>
    { id := s.id, school_name := s.school_name, session_type := s.session_type,
      location := s.location, activator := s.activator, year_group := s.year_group,
      male_participants := s.male_participants, female_participants := s.female_participants,
      teacher_feedback := s.teacher_feedback, session_date := s.session_date,
      session_duration := s.session_duration, date_created := s.date_created,
      latitude := s.latitude, longitude := s.longitude,
      photo_count := photoCountFor w.photos s.id,
      total_participants := s.male_participants + s.female_participants })

/-! ## delete_session -/

/-- Response of the delete endpoint.  The handler has no existence check:
the only non-exception outcome is the success message. -/
inductive DeleteResp where
  | ok (message : String)
  | serverError (e : PyErr)
deriving DecidableEq, Repr

/-- delete_session: look up the file paths of the session's photo rows,
remove those files, then delete the session row.  The session_photos
rows stay: the source relies on the on-delete-cascade clause, but no
connection ever enables foreign key enforcement, so SQLite leaves the
child rows in place. -/
def delete_session (sid : Nat) (w : World) : DeleteResp × World :=
  let paths := (w.photos.filter (fun p => p.session_id == sid)).map (fun p => p.file_path)
  let fs1 := paths.foldl removeFile w.fs
  (.ok "Session deleted successfully",
   { w with fs := fs1, sessions := w.sessions.filter (fun s => !(s.id == sid)) })

/-! ## upload_photos -/

def allowedExtensions : List String := ["png", "jpg", "jpeg", "gif"]

def toLowerStr (s : String) : String := String.mk (s.toList.map Char.toLower)

/-- filename.rsplit on the final dot: the suffix after the last dot,
lowercased; none when the filename has no dot. -/
def extOf (filename : String) : Option String :=
  if filename.toList.contains '.' then
    some (toLowerStr (String.mk ((filename.toList.reverse.takeWhile (fun c => !(c == '.'))).reverse)))
  else none

/-- The allowed_file check of the source. -/
def allowed_file (filename : String) : Bool :=
  match extOf filename with
  | some e => allowedExtensions.contains e
  | none => false

def maxFileSize : Nat := 5 * 1024 * 1024

/-- One file of the multipart upload request: the client filename and the
byte size of its content. -/
structure UploadFile where
  filename : String
  size : Nat
deriving DecidableEq, Repr

/-- One entry of the success response. -/
structure PhotoInfo where
  filename : String
  original_filename : String
  size : Nat
deriving DecidableEq, Repr

/-- Outcome of the per-file loop: an early-return rejection carrying the
file system as it stands (uncommitted inserts roll back), or completion
with the final counter, file system, pending rows and response entries. -/
inductive LoopOut where
  | failType (fname : String) (fs : List String)
  | failSize (fname : String) (fs : List String)
  | finished (k : Nat) (fs : List String) (pending : List Photo) (uploaded : List PhotoInfo)
deriving DecidableEq, Repr

/-- The per-file loop of upload_photos: skip empty filenames, reject a
disallowed extension, save the bytes, then reject an oversized file after
removing the file just written, otherwise stage the insert.  The uuid hex
filename is modelled by the fresh counter k. -/
def uploadLoop (sid : Nat) (files : List UploadFile) (k : Nat) (fs : List String)
    (pending : List Photo) (uploaded : List PhotoInfo) : LoopOut :=
  match files with
  | [] => .finished k fs pending uploaded
  | f :: rest =>
      if f.filename == "" then uploadLoop sid rest k fs pending uploaded
      else if !allowed_file f.filename then .failType f.filename fs
      else
        let ext := (extOf f.filename).getD ""
        let name := "u" ++ toString k ++ "." ++ ext
        let path := "uploads/photos/" ++ name
        let fs1 := fsSave fs path
        if f.size > maxFileSize then .failSize f.filename (removeFile fs1 path)
        else
          uploadLoop sid rest (k + 1) fs1
            (pending ++ [{ id := k, session_id := sid, filename := name,
                           original_filename := f.filename, file_path := path,
                           file_size := f.size }])
            (uploaded ++ [{ filename := name, original_filename := f.filename,
                            size := f.size }])

/-- Response of the upload endpoint. The type rejection renders as a
file-type-not-allowed message and the size rejection as the
file-too-large message for the named file. -/
inductive UploadResp where
  | notFound
  | noPhotos
  | typeRejected (fname : String)
  | sizeRejected (fname : String)
  | uploadedOk (photos : List PhotoInfo)
deriving DecidableEq, Repr

structure UploadResult where
  resp : UploadResp
  w : World
deriving DecidableEq, Repr

/-- upload_photos: check the session exists, check the request carries a
photos part, then run the loop; commit the staged rows only on full
success, keep the written files either way. -/
def upload_photos (sid : Nat) (filesPart : Option (List UploadFile)) (w : World) :
    UploadResult :=
  if !(w.sessions.any (fun s => s.id == sid)) then ⟨.notFound, w⟩
  else
    match filesPart with
    | none => ⟨.noPhotos, w⟩
    | some files =>
        match uploadLoop sid files w.nextPhotoId w.fs [] [] with
        | .failType f fs1 => ⟨.typeRejected f, { w with fs := fs1 }⟩
        | .failSize f fs1 => ⟨.sizeRejected f, { w with fs := fs1 }⟩
        | .finished k fs1 pend upl =>
            ⟨.uploadedOk upl,
             { w with fs := fs1, photos := w.photos ++ pend, nextPhotoId := k }⟩

/-! ## get_stats -/

/-- The SQL sum aggregate of male plus female over a set of rows: NULL on
the empty set. -/
def sqlSumParticipants (rows : List Session) : Option Int :=
  match rows with
  | [] => none
  | _ => some ((rows.map (fun r => r.male_participants + r.female_participants)).foldl
                (fun a b => a + b) 0)

/-- The Python idiom value-or-zero applied to the fetched aggregate:
NULL becomes 0 (and an integer 0 stays 0). -/
def orZero : Option Int → Int
  | none => 0
  | some n => n

structure DayStat where
  date : String
  participants : Int
  day : String
deriving DecidableEq, Repr

structure StatsOut where
  recent_participants : Int
  daily_stats : List DayStat
deriving DecidableEq, Repr

/-- The recent-participants query: sum over rows whose session_date
compares at least the date seven days before today (text comparison on
the stored date strings, with no upper bound). -/
def recentParticipants (rows : List Session) (today : Nat) : Int :=
  let sevenDaysAgo := fmtDay (today - 7)
  orZero (sqlSumParticipants (rows.filter (fun r => sqliteTextLe sevenDaysAgo r.session_date)))

/-- The daily loop: for i from 0 to 6 the date 6-i days before today,
with the per-day equality query and the weekday label. -/
def dailyStats (rows : List Session) (today : Nat) : List DayStat :=
  (List.range 7).map (fun i =>
    let z := today - (6 - i)
    let date := fmtDay z
    { date := date,
      participants := orZero (sqlSumParticipants (rows.filter (fun r => r.session_date == date))),
      day := dayName z })

/-- get_stats: the trailing total and the seven-day series, computed from
the sessions table as of the current date. -/
def get_stats (w : World) (today : Nat) : StatsOut :=
  { recent_participants := recentParticipants w.sessions today,
    daily_stats := dailyStats w.sessions today }

/-! ## Statements taken from the specification text

The aggregator claims compare the code against formulas stated in the
spec's words; those formulas are defined here separately from the
embedded queries. -/

/-- The recent total as the claim states it: sum of both counts over
records whose session_date lies in the inclusive window from six days
before the as-of date through the as-of date. -/
def claimRecentTotal (rows : List Session) (today : Nat) : Int :=
  ((rows.filter (fun r =>
      sqliteTextLe (fmtDay (today - 6)) r.session_date &&
      sqliteTextLe r.session_date (fmtDay today))).map
    (fun r => r.male_participants + r.female_participants)).sum

/-- The recent total as the code computes it, in closed form: sum of both
counts over records whose session_date is on or after the date seven days
before the as-of date, with no upper bound. -/
def amendedRecentTotal (rows : List Session) (today : Nat) : Int :=
  ((rows.filter (fun r => sqliteTextLe (fmtDay (today - 7)) r.session_date)).map
    (fun r => r.male_participants + r.female_participants)).sum

/-- Per-day participant sum as the claim states it: both-gender counts of
the records dated exactly that day. -/
def claimDaySum (rows : List Session) (z : Nat) : Int :=
  ((rows.filter (fun r => r.session_date == fmtDay z)).map
    (fun r => r.male_participants + r.female_participants)).sum

/-! ## Shared lemmas -/

theorem foldl_add_eq_sum (l : List Int) : ∀ a : Int, l.foldl (fun x y => x + y) a = a + l.sum := by
  induction l with
  | nil => intro a; simp
  | cons x xs ih => intro a; simp only [List.foldl_cons, ih, List.sum_cons]; ring

theorem orZero_sqlSum (rows : List Session) :
    orZero (sqlSumParticipants rows) =
      (rows.map (fun r => r.male_participants + r.female_participants)).sum := by
  cases rows with
  | nil => rfl
  | cons r rs => simp [sqlSumParticipants, orZero, foldl_add_eq_sum]

/-- A sample session row used by concrete instances below. -/
def mkSession (id : Nat) (date : String) (male female : Int) : Session :=
  { id := id, school_name := "Sample School", session_type := "Kiwi Cricket Skills Session",
    location := "School Hall", activator := "Jo Smith", year_group := "Year 3-4",
    male_participants := male, female_participants := female, teacher_feedback := none,
    session_date := date, session_duration := 60,
    date_created := "2025-06-15 10:00:00", latitude := none, longitude := none }

/-! ## Claim C1: the trailing window of recent_total -/

def c1today : Nat := daysFromCivil 2025 6 15

def c1world : World :=
  { sessions := [mkSession 1 "2025-06-08" 3 4, mkSession 2 "2025-06-20" 5 6] }

/-- C1 counterexample: with the as-of date 2025-06-15, a record dated
2025-06-08 (seven days before, outside the claimed window) and a record
dated 2025-06-20 (after the as-of date) both contribute to
recent_participants, which the claim says must equal the in-window sum 0. -/
theorem recent_total_window_cex :
    (get_stats c1world c1today).recent_participants = 18 ∧
    claimRecentTotal c1world.sessions c1today = 0 := by
  constructor <;> decide

/-- C1 (amended): recent_participants equals the sum of both counts over
exactly the records whose session_date is on or after the date seven days
before the as-of date; records dated after the as-of date are included
since the query has no upper bound. -/
theorem recent_total_amended (w : World) (today : Nat) :
    (get_stats w today).recent_participants = amendedRecentTotal w.sessions today := by
  simp only [get_stats, recentParticipants, amendedRecentTotal]
  exact orZero_sqlSum _

/-! ## Claim C7: the seven-day daily series -/

/-- C7: daily_stats has exactly seven entries; the entry at index i
carries the date 6-i days before the as-of date, the sum of both counts
over records dated exactly that day (zero if none), and the abbreviated
weekday name; the day numbers behind consecutive entries strictly
ascend. -/
theorem daily_series_correct (w : World) (today : Nat) (h6 : 6 ≤ today) :
    ((get_stats w today).daily_stats).length = 7 ∧
    (∀ i, i < 7 →
      ((get_stats w today).daily_stats)[i]? =
        some { date := fmtDay (today - (6 - i)),
               participants := claimDaySum w.sessions (today - (6 - i)),
               day := dayName (today - (6 - i)) }) ∧
    (∀ i j, i < j → j < 7 → today - (6 - i) < today - (6 - j)) := by
  refine ⟨by simp [get_stats, dailyStats], ?_, ?_⟩
  · intro i hi
    simp only [get_stats, dailyStats, List.getElem?_map, List.getElem?_range, hi]
    simp only [claimDaySum, orZero_sqlSum]
    rfl
  · intro i j hij hj
    omega

def c7world : World :=
  { sessions := [mkSession 1 "2025-06-15" 8 9, mkSession 2 "2025-06-15" 5 5,
                 mkSession 3 "2025-06-11" 3 4] }

/-- C7 witness at the as-of date 2025-06-15. -/
theorem daily_series_correct_witness :
    ((get_stats c7world c1today).daily_stats).length = 7 :=
  (daily_series_correct c7world c1today (by decide)).1

/-! ## Claim C9: delete of a missing session -/

/-- C9 counterexample: deleting identifier 5 from an empty store reports
success, not a not-found result. -/
theorem delete_missing_reports_ok :
    (delete_session 5 ({} : World)).1 = .ok "Session deleted successfully" ∧
    (({} : World).sessions.all (fun s => !(s.id == 5))) = true := by
  constructor <;> decide

/-- C9 (amended): the delete operation returns the success result for
every identifier, whether or not a session with that identifier exists
(there is no not-found branch); the session rows with that identifier are
removed. -/
theorem delete_session_always_ok (sid : Nat) (w : World) :
    (delete_session sid w).1 = .ok "Session deleted successfully" ∧
    (delete_session sid w).2.sessions = w.sessions.filter (fun s => !(s.id == sid)) :=
  ⟨rfl, rfl⟩

/-! ## Claim C3: cascade deletion of photo rows -/

def c3photo : Photo :=
  { id := 1, session_id := 1, filename := "a.png", original_filename := "orig.png",
    file_path := "uploads/photos/a.png", file_size := 100 }

def c3world : World :=
  { sessions := [mkSession 1 "2025-06-10" 3 4], photos := [c3photo],
    fs := ["uploads/photos/a.png"], nextSessionId := 2, nextPhotoId := 2 }

/-- C3 failing input evaluated: deleting session 1 removes the session
row and the backing file, but the session_photos row owned by session 1
remains in the store, because foreign key enforcement is never enabled on
the sqlite3 connections and the on-delete-cascade clause therefore never
fires. -/
theorem delete_session_leaves_photo_rows :
    (delete_session 1 c3world).2.sessions = [] ∧
    (delete_session 1 c3world).2.fs = [] ∧
    (delete_session 1 c3world).2.photos = [c3photo] ∧
    c3photo.session_id = 1 := by
  refine ⟨by decide, by decide, by decide, by decide⟩

/-! ## Claim C10: derived fields of the session listing -/

/-- C10: every record the listing returns carries total_participants
equal to its own male plus female counts, and photo_count equal to the
number of photo rows owned by its session identifier. -/
theorem get_sessions_derived_fields (w : World) (r : ApiSession)
    (hr : r ∈ get_sessions w) :
    r.total_participants = r.male_participants + r.female_participants ∧
    r.photo_count = photoCountFor w.photos r.id := by
  rcases List.mem_map.mp hr with ⟨s, _, rfl⟩
  exact ⟨rfl, rfl⟩

def c10photoA : Photo :=
  { id := 1, session_id := 1, filename := "p1.png", original_filename := "one.png",
    file_path := "uploads/photos/p1.png", file_size := 10 }

def c10photoB : Photo :=
  { id := 2, session_id := 1, filename := "p2.png", original_filename := "two.png",
    file_path := "uploads/photos/p2.png", file_size := 20 }

def c10world : World :=
  { sessions := [mkSession 1 "2025-06-10" 3 4],
    photos := [c10photoA, c10photoB],
    fs := ["uploads/photos/p1.png", "uploads/photos/p2.png"],
    nextSessionId := 2, nextPhotoId := 3 }

def c10rec : ApiSession :=
  { id := 1, school_name := "Sample School", session_type := "Kiwi Cricket Skills Session",
    location := "School Hall", activator := "Jo Smith", year_group := "Year 3-4",
    male_participants := 3, female_participants := 4, teacher_feedback := none,
    session_date := "2025-06-10", session_duration := 60,
    date_created := "2025-06-15 10:00:00", latitude := none, longitude := none,
    photo_count := 2, total_participants := 7 }

/-- C10 witness on a store with one session owning two photos. -/
theorem get_sessions_derived_fields_witness :
    c10rec.total_participants = c10rec.male_participants + c10rec.female_participants ∧
    c10rec.photo_count = photoCountFor c10world.photos c10rec.id :=
  get_sessions_derived_fields c10world c10rec (by decide)


/-! ## Claim C8: cleanup on the size-limit failure -/

theorem mem_fsSave_self (fs : List String) (p : String) : p ∈ fsSave fs p := by
  unfold fsSave
  split
  next h => exact List.elem_iff.mp h
  next h => simp

theorem mem_fsSave_of_mem (q : String) (fs : List String) (p : String) (hq : q ∈ fs) :
    q ∈ fsSave fs p := by
  unfold fsSave
  split
  next => exact hq
  next => simp [hq]

theorem mem_foldl_fsSave (l : List String) :
    ∀ (fs : List String) (q : String), q ∈ fs → q ∈ l.foldl fsSave fs := by
  induction l with
  | nil => intro fs q hq; simpa using hq
  | cons p ps ih =>
      intro fs q hq
      exact ih (fsSave fs p) q (mem_fsSave_of_mem q fs p hq)

theorem mem_removeFile (q : String) (fs : List String) (p : String)
    (hq : q ∈ fs) (hne : ¬(q = p)) : q ∈ removeFile fs p := by
  unfold removeFile
  simp [List.mem_filter, hq, hne]

/-- Inversion of the upload loop on the size-rejection outcome: the file
system it leaves behind is the initial one plus the files written for
earlier entries plus the offending file, with only the offending file
removed again; every earlier written path other than the offending one is
still present. -/
theorem uploadLoop_failSize (sid : Nat) (files : List UploadFile) :
    ∀ (k : Nat) (fs : List String) (pending : List Photo) (uploaded : List PhotoInfo)
      (f : String) (fs2 : List String),
      uploadLoop sid files k fs pending uploaded = .failSize f fs2 →
      ∃ (prior : List String) (off : String),
        fs2 = removeFile (fsSave (prior.foldl fsSave fs) off) off ∧
        (∀ p ∈ prior, ¬(p = off) → p ∈ fs2) := by
  induction files with
  | nil =>
      intro k fs pending uploaded f fs2 h
      simp [uploadLoop] at h
  | cons f0 rest ih =>
      intro k fs pending uploaded f fs2 h
      simp only [uploadLoop] at h
      by_cases hemp : f0.filename == ""
      · rw [if_pos hemp] at h
        exact ih k fs pending uploaded f fs2 h
      · rw [if_neg hemp] at h
        by_cases hall : allowed_file f0.filename
        · rw [if_neg (by simp [hall])] at h
          by_cases hsz : f0.size > maxFileSize
          · rw [if_pos hsz] at h
            cases h
            refine ⟨[], "uploads/photos/" ++ ("u" ++ toString k ++ "." ++
              (extOf f0.filename).getD ""), rfl, ?_⟩
            intro p hp
            simp at hp
          · rw [if_neg hsz] at h
            rcases ih _ _ _ _ _ _ h with ⟨prior1, off, heq, hmem⟩
            refine ⟨("uploads/photos/" ++ ("u" ++ toString k ++ "." ++
              (extOf f0.filename).getD "")) :: prior1, off, ?_, ?_⟩
            · simpa using heq
            · intro p hp hne
              rcases List.mem_cons.mp hp with hp0 | hp1
              · subst hp0
                rw [heq]
                exact mem_removeFile _ _ _
                  (mem_fsSave_of_mem _ _ _
                    (mem_foldl_fsSave _ _ _ (mem_fsSave_self _ _))) hne
              · exact hmem p hp1 hne
        · rw [if_pos (by simp [hall])] at h
          cases h

/-- C8 (amended): whenever the upload reports failure because a file
exceeds the size limit, the offending just-written file has been deleted
from storage before the failure is reported, but files written for
earlier entries of the same request remain on disk; no photo row of the
request is committed. -/
theorem upload_size_failure_cleanup (sid : Nat) (files : List UploadFile) (w : World)
    (fname : String)
    (h : (upload_photos sid (some files) w).resp = .sizeRejected fname) :
    ∃ (prior : List String) (off : String),
      (upload_photos sid (some files) w).w.fs =
        removeFile (fsSave (prior.foldl fsSave w.fs) off) off ∧
      (∀ p ∈ prior, ¬(p = off) → p ∈ (upload_photos sid (some files) w).w.fs) ∧
      (upload_photos sid (some files) w).w.photos = w.photos := by
  by_cases hex : w.sessions.any (fun s => s.id == sid)
  · cases hloop : uploadLoop sid files w.nextPhotoId w.fs [] [] with
    | failType g fs1 => simp [upload_photos, hex, hloop] at h
    | finished k fs1 pend upl => simp [upload_photos, hex, hloop] at h
    | failSize g fs1 =>
        rcases uploadLoop_failSize sid files _ _ _ _ _ _ hloop with ⟨prior, off, heq, hmem⟩
        refine ⟨prior, off, ?_, ?_, ?_⟩
        · simp only [upload_photos, hex, Bool.not_true, Bool.false_eq_true, if_false, hloop]
          exact heq
        · intro p hp hne
          simp only [upload_photos, hex, Bool.not_true, Bool.false_eq_true, if_false, hloop]
          exact hmem p hp hne
        · simp only [upload_photos, hex, Bool.not_true, Bool.false_eq_true, if_false, hloop]
  · simp [upload_photos, hex] at h

def c8files : List UploadFile := [⟨"a.png", 10⟩, ⟨"b.png", 5 * 1024 * 1024 + 1⟩]

def c8world : World :=
  { sessions := [mkSession 1 "2025-06-10" 3 4], nextSessionId := 2, nextPhotoId := 1 }

/-- C8 counterexample: a request carrying a small file followed by an
oversized one is rejected for the size violation, yet the file written
for the first entry is still in storage afterwards (and its row was
rolled back), so a blob written during the failing request survives. -/
theorem upload_size_failure_orphan_cex :
    (upload_photos 1 (some c8files) c8world).resp = .sizeRejected "b.png" ∧
    (upload_photos 1 (some c8files) c8world).w.fs = ["uploads/photos/u1.png"] ∧
    c8world.fs = [] := by
  refine ⟨by decide, by decide, by decide⟩

/-- C8 witness: the amended cleanup statement applied to the concrete
failing request. -/
theorem upload_size_failure_cleanup_witness :
    (∃ (prior : List String) (off : String),
      (upload_photos 1 (some c8files) c8world).w.fs =
        removeFile (fsSave (prior.foldl fsSave c8world.fs) off) off ∧
      (∀ p ∈ prior, ¬(p = off) → p ∈ (upload_photos 1 (some c8files) c8world).w.fs) ∧
      (upload_photos 1 (some c8files) c8world).w.photos = c8world.photos) :=
  upload_size_failure_cleanup 1 c8files c8world "b.png" (by decide)

def okval (e : Except PyErr (List String)) : List String :=
  match e with
  | .ok a => a
  | .error _ => []

theorem validate_ok_parts (today : Nat) (d : Data) (l : List String)
    (h : validate_session_data today d = .ok l) :
    schoolErrs d = .ok (okval (schoolErrs d)) ∧
    typeErrs d = .ok (okval (typeErrs d)) ∧
    locationErrs d = .ok (okval (locationErrs d)) ∧
    activatorErrs d = .ok (okval (activatorErrs d)) ∧
    dateErrs today d = .ok (okval (dateErrs today d)) ∧
    feedbackErrs d = .ok (okval (feedbackErrs d)) ∧
    l = reqErrs d ++ okval (schoolErrs d) ++ okval (typeErrs d) ++ okval (locationErrs d) ++
        okval (activatorErrs d) ++ yearErrs d ++ maleErrs d ++ femaleErrs d ++
        totalErrs d ++ durationErrs d ++ okval (dateErrs today d) ++ latErrs d ++
        lngErrs d ++ okval (feedbackErrs d) := by
  cases h2 : schoolErrs d with
  | error e => simp [validate_session_data, h2] at h
  | ok a2 =>
  cases h3 : typeErrs d with
  | error e => simp [validate_session_data, h2, h3] at h
  | ok a3 =>
  cases h4 : locationErrs d with
  | error e => simp [validate_session_data, h2, h3, h4] at h
  | ok a4 =>
  cases h5 : activatorErrs d with
  | error e => simp [validate_session_data, h2, h3, h4, h5] at h
  | ok a5 =>
  cases h11 : dateErrs today d with
  | error e => simp [validate_session_data, h2, h3, h4, h5, h11] at h
  | ok a11 =>
  cases h14 : feedbackErrs d with
  | error e => simp [validate_session_data, h2, h3, h4, h5, h11, h14] at h
  | ok a14 =>
  simp only [validate_session_data, h2, h3, h4, h5, h11, h14, Except.ok.injEq] at h
  simp only [okval]
  exact ⟨trivial, trivial, trivial, trivial, trivial, trivial, h.symm⟩

def reqMsgList : List String :=
  ["School Name is required", "Session Type is required", "Location is required",
   "Activator is required", "Year Group is required", "Male Participants is required",
   "Female Participants is required", "Session Date is required",
   "Session Duration is required"]

def schoolMsgs : List String :=
  ["School name must be at least 2 characters long",
   "School name must be less than 100 characters"]

def typeMsgs : List String :=
  ["Session type must be at least 2 characters long",
   "Session type must be less than 50 characters"]

def locMsgs : List String :=
  ["Location must be at least 2 characters long",
   "Location must be less than 100 characters"]

def actMsgs : List String :=
  ["Activator name must be at least 2 characters long",
   "Activator name must be less than 50 characters",
   "Activator name can only contain letters, spaces, hyphens, and periods"]

def yearMsgs : List String := ["Please select a valid year group"]

def maleMsgs : List String :=
  ["Male participants cannot be negative", "Male participants seems too high (max 1000)",
   "Male participants must be a valid number"]

def femaleMsgs : List String :=
  ["Female participants cannot be negative", "Female participants seems too high (max 1000)",
   "Female participants must be a valid number"]

def totalMsgs : List String :=
  ["Total participants must be greater than 0", "Total participants seems too high (max 2000)"]

def durMsgs : List String :=
  ["Session duration must be greater than 0 minutes",
   "Session duration seems too long (max 8 hours)", "Session duration must be a valid number"]

def dateMsgs : List String :=
  ["Session date cannot be in the future", "Session date seems too old",
   "Please provide a valid session date"]

def latMsgs : List String :=
  ["Latitude must be between -90 and 90", "Latitude must be a valid number"]

def lngMsgs : List String :=
  ["Longitude must be between -180 and 180", "Longitude must be a valid number"]

def fbMsgs : List String := ["Teacher feedback must be less than 1000 characters"]

theorem reqErrs_sub (d : Data) (m : String) (hm : m ∈ reqErrs d) : m ∈ reqMsgList := by
  rcases List.mem_filterMap.mp hm with ⟨f, hf, hmf⟩
  by_cases hc : reqCond d f
  · rw [if_pos hc] at hmf
    cases hmf
    revert hf
    exact (by decide : ∀ g ∈ requiredFields, reqMsg g ∈ reqMsgList) f
  · rw [if_neg hc] at hmf
    cases hmf

theorem okval_school_sub (d : Data) (m : String) (hm : m ∈ okval (schoolErrs d)) :
    m ∈ schoolMsgs := by
  cases hE : schoolErrs d with
  | error e => simp [okval, hE] at hm
  | ok a =>
      rw [hE] at hm
      simp only [okval] at hm
      unfold schoolErrs at hE
      by_cases ht : pyTruthy (pyGetD d .school_name)
      · rw [if_pos ht] at hE
        cases hs : pyStripE (pyGetD d .school_name) with
        | error e => rw [hs] at hE; cases hE
        | ok s =>
            rw [hs] at hE
            cases hE
            rcases List.mem_append.mp hm with h | h <;> (split at h <;> simp_all [schoolMsgs])
      · rw [if_neg ht] at hE
        cases hE
        simp at hm

theorem okval_type_sub (d : Data) (m : String) (hm : m ∈ okval (typeErrs d)) :
    m ∈ typeMsgs := by
  cases hE : typeErrs d with
  | error e => simp [okval, hE] at hm
  | ok a =>
      rw [hE] at hm
      simp only [okval] at hm
      unfold typeErrs at hE
      by_cases ht : pyTruthy (pyGetD d .session_type)
      · rw [if_pos ht] at hE
        cases hs : pyStripE (pyGetD d .session_type) with
        | error e => rw [hs] at hE; cases hE
        | ok s =>
            rw [hs] at hE
            cases hE
            rcases List.mem_append.mp hm with h | h <;> (split at h <;> simp_all [typeMsgs])
      · rw [if_neg ht] at hE
        cases hE
        simp at hm

theorem okval_location_sub (d : Data) (m : String) (hm : m ∈ okval (locationErrs d)) :
    m ∈ locMsgs := by
  cases hE : locationErrs d with
  | error e => simp [okval, hE] at hm
  | ok a =>
      rw [hE] at hm
      simp only [okval] at hm
      unfold locationErrs at hE
      by_cases ht : pyTruthy (pyGetD d .location)
      · rw [if_pos ht] at hE
        cases hs : pyStripE (pyGetD d .location) with
        | error e => rw [hs] at hE; cases hE
        | ok s =>
            rw [hs] at hE
            cases hE
            rcases List.mem_append.mp hm with h | h <;> (split at h <;> simp_all [locMsgs])
      · rw [if_neg ht] at hE
        cases hE
        simp at hm

theorem okval_activator_sub (d : Data) (m : String) (hm : m ∈ okval (activatorErrs d)) :
    m ∈ actMsgs := by
  cases hE : activatorErrs d with
  | error e => simp [okval, hE] at hm
  | ok a =>
      rw [hE] at hm
      simp only [okval] at hm
      unfold activatorErrs at hE
      by_cases ht : pyTruthy (pyGetD d .activator)
      · rw [if_pos ht] at hE
        cases hs : pyStripE (pyGetD d .activator) with
        | error e => rw [hs] at hE; cases hE
        | ok s =>
            rw [hs] at hE
            cases hE
            simp only [List.mem_append] at hm
            rcases hm with (h | h) | h <;> (split at h <;> simp_all [actMsgs])
      · rw [if_neg ht] at hE
        cases hE
        simp at hm

theorem okval_date_sub (today : Nat) (d : Data) (m : String)
    (hm : m ∈ okval (dateErrs today d)) : m ∈ dateMsgs := by
  cases hE : dateErrs today d with
  | error e => simp [okval, hE] at hm
  | ok a =>
      rw [hE] at hm
      simp only [okval] at hm
      unfold dateErrs at hE
      by_cases ht : pyTruthy (pyGetD d .session_date)
      · rw [if_pos ht] at hE
        cases hv : pyGetD d .session_date with
        | vStr s =>
            simp only [hv] at hE
            cases hp : parseYmd s with
            | some ymd =>
                simp only [hp] at hE
                cases hE
                rcases List.mem_append.mp hm with h | h <;> (split at h <;> simp_all [dateMsgs])
            | none =>
                simp only [hp] at hE
                cases hE
                simp_all [dateMsgs]
        | vNone => simp [hv] at hE
        | vInt n => simp [hv] at hE
      · rw [if_neg ht] at hE
        cases hE
        simp at hm

theorem okval_feedback_sub (d : Data) (m : String) (hm : m ∈ okval (feedbackErrs d)) :
    m ∈ fbMsgs := by
  cases hE : feedbackErrs d with
  | error e => simp [okval, hE] at hm
  | ok a =>
      rw [hE] at hm
      simp only [okval] at hm
      unfold feedbackErrs at hE
      by_cases ht : pyTruthy (pyGetD d .teacher_feedback)
      · rw [if_pos ht] at hE
        cases hs : pyLenE (pyGetD d .teacher_feedback) with
        | error e => rw [hs] at hE; cases hE
        | ok n =>
            rw [hs] at hE
            cases hE
            split at hm <;> simp_all [fbMsgs]
      · rw [if_neg ht] at hE
        cases hE
        simp at hm

theorem yearErrs_sub (d : Data) (m : String) (hm : m ∈ yearErrs d) : m ∈ yearMsgs := by
  simp only [yearErrs] at hm
  split at hm <;> simp_all [yearMsgs]

theorem maleErrs_sub (d : Data) (m : String) (hm : m ∈ maleErrs d) : m ∈ maleMsgs := by
  unfold maleErrs at hm
  cases hp : pyIntOpt (pyGetD2 d .male_participants (.vInt 0)) with
  | some k =>
      simp only [hp] at hm
      rcases List.mem_append.mp hm with h | h <;> (split at h <;> simp_all [maleMsgs])
  | none => simp only [hp] at hm; simp_all [maleMsgs]

theorem femaleErrs_sub (d : Data) (m : String) (hm : m ∈ femaleErrs d) : m ∈ femaleMsgs := by
  unfold femaleErrs at hm
  cases hp : pyIntOpt (pyGetD2 d .female_participants (.vInt 0)) with
  | some k =>
      simp only [hp] at hm
      rcases List.mem_append.mp hm with h | h <;> (split at h <;> simp_all [femaleMsgs])
  | none => simp only [hp] at hm; simp_all [femaleMsgs]

theorem totalErrs_sub (d : Data) (m : String) (hm : m ∈ totalErrs d) : m ∈ totalMsgs := by
  unfold totalErrs at hm
  cases hp : pyIntOpt (pyGetD2 d .male_participants (.vInt 0)) with
  | some k =>
      cases hq : pyIntOpt (pyGetD2 d .female_participants (.vInt 0)) with
      | some j =>
          simp only [hp, hq] at hm
          rcases List.mem_append.mp hm with h | h <;> (split at h <;> simp_all [totalMsgs])
      | none => simp only [hp, hq] at hm; simp at hm
  | none => simp only [hp] at hm; simp at hm

theorem durationErrs_sub (d : Data) (m : String) (hm : m ∈ durationErrs d) : m ∈ durMsgs := by
  unfold durationErrs at hm
  cases hp : pyIntOpt (pyGetD2 d .session_duration (.vInt 0)) with
  | some k =>
      simp only [hp] at hm
      rcases List.mem_append.mp hm with h | h <;> (split at h <;> simp_all [durMsgs])
  | none => simp only [hp] at hm; simp_all [durMsgs]

theorem latErrs_sub (d : Data) (m : String) (hm : m ∈ latErrs d) : m ∈ latMsgs := by
  unfold latErrs at hm
  by_cases ht : pyTruthy (pyGetD d .latitude)
  · rw [if_pos ht] at hm
    cases hp : pyFloatOpt (pyGetD d .latitude) with
    | some x => simp only [hp] at hm; split at hm <;> simp_all [latMsgs]
    | none => simp only [hp] at hm; simp_all [latMsgs]
  · rw [if_neg ht] at hm
    simp at hm

theorem lngErrs_sub (d : Data) (m : String) (hm : m ∈ lngErrs d) : m ∈ lngMsgs := by
  unfold lngErrs at hm
  by_cases ht : pyTruthy (pyGetD d .longitude)
  · rw [if_pos ht] at hm
    cases hp : pyFloatOpt (pyGetD d .longitude) with
    | some x => simp only [hp] at hm; split at hm <;> simp_all [lngMsgs]
    | none => simp only [hp] at hm; simp_all [lngMsgs]
  · rw [if_neg ht] at hm
    simp at hm

theorem validate_ok_count (today : Nat) (d : Data) (l : List String)
    (h : validate_session_data today d = .ok l) (M : String) :
    l.count M =
      (reqErrs d).count M + (okval (schoolErrs d)).count M + (okval (typeErrs d)).count M +
      (okval (locationErrs d)).count M + (okval (activatorErrs d)).count M +
      (yearErrs d).count M + (maleErrs d).count M + (femaleErrs d).count M +
      (totalErrs d).count M + (durationErrs d).count M + (okval (dateErrs today d)).count M +
      (latErrs d).count M + (lngErrs d).count M + (okval (feedbackErrs d)).count M := by
  obtain ⟨-, -, -, -, -, -, hl⟩ := validate_ok_parts today d l h
  subst hl
  simp only [List.count_append]

theorem count_zero_of_sub {comp inv : List String} (sub : ∀ m ∈ comp, m ∈ inv)
    (M : String) (hM : ¬ M ∈ inv) : comp.count M = 0 :=
  List.count_eq_zero.mpr (fun hc => hM (sub M hc))

theorem mem_iff_count_pos (M : String) (l : List String) : M ∈ l ↔ 0 < l.count M :=
  List.count_pos_iff.symm

theorem count_eq_maleErrs (today : Nat) (d : Data) (l : List String)
    (h : validate_session_data today d = .ok l) (M : String) (hM : M ∈ maleMsgs) :
    l.count M = (maleErrs d).count M := by
  rw [validate_ok_count today d l h M,
    count_zero_of_sub (reqErrs_sub d) M ((by decide : ∀ x ∈ maleMsgs, ¬ x ∈ reqMsgList) M hM),
    count_zero_of_sub (okval_school_sub d) M ((by decide : ∀ x ∈ maleMsgs, ¬ x ∈ schoolMsgs) M hM),
    count_zero_of_sub (okval_type_sub d) M ((by decide : ∀ x ∈ maleMsgs, ¬ x ∈ typeMsgs) M hM),
    count_zero_of_sub (okval_location_sub d) M ((by decide : ∀ x ∈ maleMsgs, ¬ x ∈ locMsgs) M hM),
    count_zero_of_sub (okval_activator_sub d) M ((by decide : ∀ x ∈ maleMsgs, ¬ x ∈ actMsgs) M hM),
    count_zero_of_sub (yearErrs_sub d) M ((by decide : ∀ x ∈ maleMsgs, ¬ x ∈ yearMsgs) M hM),
    count_zero_of_sub (femaleErrs_sub d) M ((by decide : ∀ x ∈ maleMsgs, ¬ x ∈ femaleMsgs) M hM),
    count_zero_of_sub (totalErrs_sub d) M ((by decide : ∀ x ∈ maleMsgs, ¬ x ∈ totalMsgs) M hM),
    count_zero_of_sub (durationErrs_sub d) M ((by decide : ∀ x ∈ maleMsgs, ¬ x ∈ durMsgs) M hM),
    count_zero_of_sub (okval_date_sub today d) M ((by decide : ∀ x ∈ maleMsgs, ¬ x ∈ dateMsgs) M hM),
    count_zero_of_sub (latErrs_sub d) M ((by decide : ∀ x ∈ maleMsgs, ¬ x ∈ latMsgs) M hM),
    count_zero_of_sub (lngErrs_sub d) M ((by decide : ∀ x ∈ maleMsgs, ¬ x ∈ lngMsgs) M hM),
    count_zero_of_sub (okval_feedback_sub d) M ((by decide : ∀ x ∈ maleMsgs, ¬ x ∈ fbMsgs) M hM)]
  omega

theorem count_eq_femaleErrs (today : Nat) (d : Data) (l : List String)
    (h : validate_session_data today d = .ok l) (M : String) (hM : M ∈ femaleMsgs) :
    l.count M = (femaleErrs d).count M := by
  rw [validate_ok_count today d l h M,
    count_zero_of_sub (reqErrs_sub d) M ((by decide : ∀ x ∈ femaleMsgs, ¬ x ∈ reqMsgList) M hM),
    count_zero_of_sub (okval_school_sub d) M ((by decide : ∀ x ∈ femaleMsgs, ¬ x ∈ schoolMsgs) M hM),
    count_zero_of_sub (okval_type_sub d) M ((by decide : ∀ x ∈ femaleMsgs, ¬ x ∈ typeMsgs) M hM),
    count_zero_of_sub (okval_location_sub d) M ((by decide : ∀ x ∈ femaleMsgs, ¬ x ∈ locMsgs) M hM),
    count_zero_of_sub (okval_activator_sub d) M ((by decide : ∀ x ∈ femaleMsgs, ¬ x ∈ actMsgs) M hM),
    count_zero_of_sub (yearErrs_sub d) M ((by decide : ∀ x ∈ femaleMsgs, ¬ x ∈ yearMsgs) M hM),
    count_zero_of_sub (maleErrs_sub d) M ((by decide : ∀ x ∈ femaleMsgs, ¬ x ∈ maleMsgs) M hM),
    count_zero_of_sub (totalErrs_sub d) M ((by decide : ∀ x ∈ femaleMsgs, ¬ x ∈ totalMsgs) M hM),
    count_zero_of_sub (durationErrs_sub d) M ((by decide : ∀ x ∈ femaleMsgs, ¬ x ∈ durMsgs) M hM),
    count_zero_of_sub (okval_date_sub today d) M ((by decide : ∀ x ∈ femaleMsgs, ¬ x ∈ dateMsgs) M hM),
    count_zero_of_sub (latErrs_sub d) M ((by decide : ∀ x ∈ femaleMsgs, ¬ x ∈ latMsgs) M hM),
    count_zero_of_sub (lngErrs_sub d) M ((by decide : ∀ x ∈ femaleMsgs, ¬ x ∈ lngMsgs) M hM),
    count_zero_of_sub (okval_feedback_sub d) M ((by decide : ∀ x ∈ femaleMsgs, ¬ x ∈ fbMsgs) M hM)]
  omega

theorem count_eq_totalErrs (today : Nat) (d : Data) (l : List String)
    (h : validate_session_data today d = .ok l) (M : String) (hM : M ∈ totalMsgs) :
    l.count M = (totalErrs d).count M := by
  rw [validate_ok_count today d l h M,
    count_zero_of_sub (reqErrs_sub d) M ((by decide : ∀ x ∈ totalMsgs, ¬ x ∈ reqMsgList) M hM),
    count_zero_of_sub (okval_school_sub d) M ((by decide : ∀ x ∈ totalMsgs, ¬ x ∈ schoolMsgs) M hM),
    count_zero_of_sub (okval_type_sub d) M ((by decide : ∀ x ∈ totalMsgs, ¬ x ∈ typeMsgs) M hM),
    count_zero_of_sub (okval_location_sub d) M ((by decide : ∀ x ∈ totalMsgs, ¬ x ∈ locMsgs) M hM),
    count_zero_of_sub (okval_activator_sub d) M ((by decide : ∀ x ∈ totalMsgs, ¬ x ∈ actMsgs) M hM),
    count_zero_of_sub (yearErrs_sub d) M ((by decide : ∀ x ∈ totalMsgs, ¬ x ∈ yearMsgs) M hM),
    count_zero_of_sub (maleErrs_sub d) M ((by decide : ∀ x ∈ totalMsgs, ¬ x ∈ maleMsgs) M hM),
    count_zero_of_sub (femaleErrs_sub d) M ((by decide : ∀ x ∈ totalMsgs, ¬ x ∈ femaleMsgs) M hM),
    count_zero_of_sub (durationErrs_sub d) M ((by decide : ∀ x ∈ totalMsgs, ¬ x ∈ durMsgs) M hM),
    count_zero_of_sub (okval_date_sub today d) M ((by decide : ∀ x ∈ totalMsgs, ¬ x ∈ dateMsgs) M hM),
    count_zero_of_sub (latErrs_sub d) M ((by decide : ∀ x ∈ totalMsgs, ¬ x ∈ latMsgs) M hM),
    count_zero_of_sub (lngErrs_sub d) M ((by decide : ∀ x ∈ totalMsgs, ¬ x ∈ lngMsgs) M hM),
    count_zero_of_sub (okval_feedback_sub d) M ((by decide : ∀ x ∈ totalMsgs, ¬ x ∈ fbMsgs) M hM)]
  omega

theorem count_eq_reqErrs (today : Nat) (d : Data) (l : List String)
    (h : validate_session_data today d = .ok l) (M : String) (hM : M ∈ reqMsgList) :
    l.count M = (reqErrs d).count M := by
  rw [validate_ok_count today d l h M,
    count_zero_of_sub (okval_school_sub d) M ((by decide : ∀ x ∈ reqMsgList, ¬ x ∈ schoolMsgs) M hM),
    count_zero_of_sub (okval_type_sub d) M ((by decide : ∀ x ∈ reqMsgList, ¬ x ∈ typeMsgs) M hM),
    count_zero_of_sub (okval_location_sub d) M ((by decide : ∀ x ∈ reqMsgList, ¬ x ∈ locMsgs) M hM),
    count_zero_of_sub (okval_activator_sub d) M ((by decide : ∀ x ∈ reqMsgList, ¬ x ∈ actMsgs) M hM),
    count_zero_of_sub (yearErrs_sub d) M ((by decide : ∀ x ∈ reqMsgList, ¬ x ∈ yearMsgs) M hM),
    count_zero_of_sub (maleErrs_sub d) M ((by decide : ∀ x ∈ reqMsgList, ¬ x ∈ maleMsgs) M hM),
    count_zero_of_sub (femaleErrs_sub d) M ((by decide : ∀ x ∈ reqMsgList, ¬ x ∈ femaleMsgs) M hM),
    count_zero_of_sub (totalErrs_sub d) M ((by decide : ∀ x ∈ reqMsgList, ¬ x ∈ totalMsgs) M hM),
    count_zero_of_sub (durationErrs_sub d) M ((by decide : ∀ x ∈ reqMsgList, ¬ x ∈ durMsgs) M hM),
    count_zero_of_sub (okval_date_sub today d) M ((by decide : ∀ x ∈ reqMsgList, ¬ x ∈ dateMsgs) M hM),
    count_zero_of_sub (latErrs_sub d) M ((by decide : ∀ x ∈ reqMsgList, ¬ x ∈ latMsgs) M hM),
    count_zero_of_sub (lngErrs_sub d) M ((by decide : ∀ x ∈ reqMsgList, ¬ x ∈ lngMsgs) M hM),
    count_zero_of_sub (okval_feedback_sub d) M ((by decide : ∀ x ∈ reqMsgList, ¬ x ∈ fbMsgs) M hM)]
  omega


theorem maleErrs_of_none (d : Data)
    (hp : pyIntOpt (pyGetD2 d .male_participants (.vInt 0)) = none) :
    maleErrs d = ["Male participants must be a valid number"] := by
  simp [maleErrs, hp]

theorem maleErrs_of_some (d : Data) (m : Int)
    (hp : pyIntOpt (pyGetD2 d .male_participants (.vInt 0)) = some m) :
    maleErrs d = (if m < 0 then ["Male participants cannot be negative"] else []) ++
                 (if m > 1000 then ["Male participants seems too high (max 1000)"] else []) := by
  simp [maleErrs, hp]

theorem femaleErrs_of_none (d : Data)
    (hp : pyIntOpt (pyGetD2 d .female_participants (.vInt 0)) = none) :
    femaleErrs d = ["Female participants must be a valid number"] := by
  simp [femaleErrs, hp]

theorem femaleErrs_of_some (d : Data) (m : Int)
    (hp : pyIntOpt (pyGetD2 d .female_participants (.vInt 0)) = some m) :
    femaleErrs d = (if m < 0 then ["Female participants cannot be negative"] else []) ++
                 (if m > 1000 then ["Female participants seems too high (max 1000)"] else []) := by
  simp [femaleErrs, hp]

theorem totalErrs_of_none (d : Data)
    (hp : pyIntOpt (pyGetD2 d .male_participants (.vInt 0)) = none ∨
          pyIntOpt (pyGetD2 d .female_participants (.vInt 0)) = none) :
    totalErrs d = [] := by
  unfold totalErrs
  rcases hp with hp | hp
  · simp only [hp]
  · cases hq : pyIntOpt (pyGetD2 d .male_participants (.vInt 0)) <;> simp only [hq, hp]

theorem totalErrs_of_some (d : Data) (m f : Int)
    (hm : pyIntOpt (pyGetD2 d .male_participants (.vInt 0)) = some m)
    (hf : pyIntOpt (pyGetD2 d .female_participants (.vInt 0)) = some f) :
    totalErrs d = (if m + f == 0 then ["Total participants must be greater than 0"] else []) ++
                  (if m + f > 2000 then ["Total participants seems too high (max 2000)"] else []) := by
  simp only [totalErrs, hm, hf]

/-- C6: when a participant-count field fails to parse as an integer the
output carries exactly one type message for it and no range message;
when it parses, no type message appears and each range message appears
exactly when its bound is violated; the total-participants messages are
absent whenever either count fails to parse, and when both parse they
appear exactly when the total is zero, respectively above 2000. -/
theorem participant_count_validation (today : Nat) (d : Data) (l : List String)
    (h : validate_session_data today d = .ok l) :
    (pyIntOpt (pyGetD2 d .male_participants (.vInt 0)) = none →
       l.count "Male participants must be a valid number" = 1 ∧
       "Male participants cannot be negative" ∉ l ∧
       "Male participants seems too high (max 1000)" ∉ l) ∧
    (∀ m : Int, pyIntOpt (pyGetD2 d .male_participants (.vInt 0)) = some m →
       "Male participants must be a valid number" ∉ l ∧
       ("Male participants cannot be negative" ∈ l ↔ m < 0) ∧
       ("Male participants seems too high (max 1000)" ∈ l ↔ m > 1000)) ∧
    (pyIntOpt (pyGetD2 d .female_participants (.vInt 0)) = none →
       l.count "Female participants must be a valid number" = 1 ∧
       "Female participants cannot be negative" ∉ l ∧
       "Female participants seems too high (max 1000)" ∉ l) ∧
    (∀ m : Int, pyIntOpt (pyGetD2 d .female_participants (.vInt 0)) = some m →
       "Female participants must be a valid number" ∉ l ∧
       ("Female participants cannot be negative" ∈ l ↔ m < 0) ∧
       ("Female participants seems too high (max 1000)" ∈ l ↔ m > 1000)) ∧
    ((pyIntOpt (pyGetD2 d .male_participants (.vInt 0)) = none ∨
      pyIntOpt (pyGetD2 d .female_participants (.vInt 0)) = none) →
       "Total participants must be greater than 0" ∉ l ∧
       "Total participants seems too high (max 2000)" ∉ l) ∧
    (∀ m f : Int, pyIntOpt (pyGetD2 d .male_participants (.vInt 0)) = some m →
       pyIntOpt (pyGetD2 d .female_participants (.vInt 0)) = some f →
       ("Total participants must be greater than 0" ∈ l ↔ m + f = 0) ∧
       ("Total participants seems too high (max 2000)" ∈ l ↔ m + f > 2000)) := by
  refine ⟨?_, ?_, ?_, ?_, ?_, ?_⟩
  · intro hp
    have h1 := count_eq_maleErrs today d l h "Male participants must be a valid number" (by decide)
    have h2 := count_eq_maleErrs today d l h "Male participants cannot be negative" (by decide)
    have h3 := count_eq_maleErrs today d l h "Male participants seems too high (max 1000)" (by decide)
    rw [maleErrs_of_none d hp] at h1 h2 h3
    simp at h1 h2 h3
    refine ⟨h1, ?_, ?_⟩
    · rw [mem_iff_count_pos]; omega
    · rw [mem_iff_count_pos]; omega
  · intro m hp
    have h1 := count_eq_maleErrs today d l h "Male participants must be a valid number" (by decide)
    have h2 := count_eq_maleErrs today d l h "Male participants cannot be negative" (by decide)
    have h3 := count_eq_maleErrs today d l h "Male participants seems too high (max 1000)" (by decide)
    rw [maleErrs_of_some d m hp] at h1 h2 h3
    by_cases hneg : m < 0 <;> by_cases hhigh : m > 1000 <;>
      simp [hneg, hhigh] at h1 h2 h3 <;>
      refine ⟨by rw [mem_iff_count_pos]; omega,
              by rw [mem_iff_count_pos]; constructor <;> intro hx <;> omega,
              by rw [mem_iff_count_pos]; constructor <;> intro hx <;> omega⟩
  · intro hp
    have h1 := count_eq_femaleErrs today d l h "Female participants must be a valid number" (by decide)
    have h2 := count_eq_femaleErrs today d l h "Female participants cannot be negative" (by decide)
    have h3 := count_eq_femaleErrs today d l h "Female participants seems too high (max 1000)" (by decide)
    rw [femaleErrs_of_none d hp] at h1 h2 h3
    simp at h1 h2 h3
    refine ⟨h1, ?_, ?_⟩
    · rw [mem_iff_count_pos]; omega
    · rw [mem_iff_count_pos]; omega
  · intro m hp
    have h1 := count_eq_femaleErrs today d l h "Female participants must be a valid number" (by decide)
    have h2 := count_eq_femaleErrs today d l h "Female participants cannot be negative" (by decide)
    have h3 := count_eq_femaleErrs today d l h "Female participants seems too high (max 1000)" (by decide)
    rw [femaleErrs_of_some d m hp] at h1 h2 h3
    by_cases hneg : m < 0 <;> by_cases hhigh : m > 1000 <;>
      simp [hneg, hhigh] at h1 h2 h3 <;>
      refine ⟨by rw [mem_iff_count_pos]; omega,
              by rw [mem_iff_count_pos]; constructor <;> intro hx <;> omega,
              by rw [mem_iff_count_pos]; constructor <;> intro hx <;> omega⟩
  · intro hp
    have h1 := count_eq_totalErrs today d l h "Total participants must be greater than 0" (by decide)
    have h2 := count_eq_totalErrs today d l h "Total participants seems too high (max 2000)" (by decide)
    rw [totalErrs_of_none d hp] at h1 h2
    simp at h1 h2
    constructor
    · rw [mem_iff_count_pos]; omega
    · rw [mem_iff_count_pos]; omega
  · intro m f hm hf
    have h1 := count_eq_totalErrs today d l h "Total participants must be greater than 0" (by decide)
    have h2 := count_eq_totalErrs today d l h "Total participants seems too high (max 2000)" (by decide)
    rw [totalErrs_of_some d m f hm hf] at h1 h2
    by_cases hz : m + f = 0 <;> by_cases hh : m + f > 2000 <;>
      simp [hz, hh, beq_iff_eq] at h1 h2 <;>
      refine ⟨by rw [mem_iff_count_pos]; constructor <;> intro hx <;> omega,
              by rw [mem_iff_count_pos]; constructor <;> intro hx <;> omega⟩

theorem mem_reqErrs_iff (d : Data) (f : FieldId) (hf : f ∈ requiredFields) :
    reqMsg f ∈ reqErrs d ↔ reqCond d f = true := by
  constructor
  · intro hm
    rcases List.mem_filterMap.mp hm with ⟨g, hg, hgf⟩
    by_cases hc : reqCond d g
    · rw [if_pos hc] at hgf
      injection hgf with heq
      have hgfeq : g = f :=
        (by decide : ∀ x ∈ requiredFields, ∀ y ∈ requiredFields, reqMsg x = reqMsg y → x = y)
          g hg f hf heq
      rw [← hgfeq]
      exact hc
    · rw [if_neg hc] at hgf
      cases hgf
  · intro hc
    exact List.mem_filterMap.mpr ⟨f, hf, by rw [if_pos hc]⟩

/-- C5 (amended): for each of the nine mandatory fields, the
field-is-required message is emitted exactly when the field's value is
falsy (absent, null, the number zero, or an empty string) or its string
form is blank after trimming; the required-field messages form the
initial segment of the output, preceding all other messages. -/
theorem required_field_messages (today : Nat) (d : Data) (l : List String)
    (h : validate_session_data today d = .ok l) :
    (∃ rest, l = reqErrs d ++ rest) ∧
    (∀ f ∈ requiredFields, (reqMsg f ∈ l ↔ reqCond d f = true)) := by
  constructor
  · obtain ⟨-, -, -, -, -, -, hl⟩ := validate_ok_parts today d l h
    refine ⟨okval (schoolErrs d) ++ (okval (typeErrs d) ++ (okval (locationErrs d) ++
      (okval (activatorErrs d) ++ (yearErrs d ++ (maleErrs d ++ (femaleErrs d ++
      (totalErrs d ++ (durationErrs d ++ (okval (dateErrs today d) ++ (latErrs d ++
      (lngErrs d ++ okval (feedbackErrs d)))))))))))), ?_⟩
    rw [hl]
    simp only [List.append_assoc]
  · intro f hf
    have hc := count_eq_reqErrs today d l h (reqMsg f)
      ((by decide : ∀ g ∈ requiredFields, reqMsg g ∈ reqMsgList) f hf)
    rw [mem_iff_count_pos, hc, ← mem_iff_count_pos]
    exact mem_reqErrs_iff d f hf

def pyStrOrFalsy (v : PyVal) : Bool :=
  match v with
  | .vNone => true
  | .vStr _ => true
  | .vInt n => n == 0

def exOk (e : Except PyErr (List String)) : Bool :=
  match e with
  | .ok _ => true
  | .error _ => false

theorem exists_ok_of_exOk {e : Except PyErr (List String)} (h : exOk e = true) :
    ∃ a, e = .ok a := by
  cases e with
  | ok a => exact ⟨a, rfl⟩
  | error e => simp [exOk] at h

theorem schoolErrs_exOk (d : Data) (hs : pyStrOrFalsy (pyGetD d .school_name) = true) :
    exOk (schoolErrs d) = true := by
  unfold schoolErrs
  by_cases ht : pyTruthy (pyGetD d .school_name)
  · rw [if_pos ht]
    cases hv : pyGetD d .school_name with
    | vStr s => simp [pyStripE, exOk]
    | vNone => rw [hv] at ht; simp [pyTruthy] at ht
    | vInt n =>
        rw [hv] at ht hs
        simp [pyTruthy] at ht
        simp [pyStrOrFalsy] at hs
        exact absurd hs ht
  · rw [if_neg ht]
    simp [exOk]

theorem typeErrs_exOk (d : Data) (hs : pyStrOrFalsy (pyGetD d .session_type) = true) :
    exOk (typeErrs d) = true := by
  unfold typeErrs
  by_cases ht : pyTruthy (pyGetD d .session_type)
  · rw [if_pos ht]
    cases hv : pyGetD d .session_type with
    | vStr s => simp [pyStripE, exOk]
    | vNone => rw [hv] at ht; simp [pyTruthy] at ht
    | vInt n =>
        rw [hv] at ht hs
        simp [pyTruthy] at ht
        simp [pyStrOrFalsy] at hs
        exact absurd hs ht
  · rw [if_neg ht]
    simp [exOk]

theorem locationErrs_exOk (d : Data) (hs : pyStrOrFalsy (pyGetD d .location) = true) :
    exOk (locationErrs d) = true := by
  unfold locationErrs
  by_cases ht : pyTruthy (pyGetD d .location)
  · rw [if_pos ht]
    cases hv : pyGetD d .location with
    | vStr s => simp [pyStripE, exOk]
    | vNone => rw [hv] at ht; simp [pyTruthy] at ht
    | vInt n =>
        rw [hv] at ht hs
        simp [pyTruthy] at ht
        simp [pyStrOrFalsy] at hs
        exact absurd hs ht
  · rw [if_neg ht]
    simp [exOk]

theorem activatorErrs_exOk (d : Data) (hs : pyStrOrFalsy (pyGetD d .activator) = true) :
    exOk (activatorErrs d) = true := by
  unfold activatorErrs
  by_cases ht : pyTruthy (pyGetD d .activator)
  · rw [if_pos ht]
    cases hv : pyGetD d .activator with
    | vStr s => simp [pyStripE, exOk]
    | vNone => rw [hv] at ht; simp [pyTruthy] at ht
    | vInt n =>
        rw [hv] at ht hs
        simp [pyTruthy] at ht
        simp [pyStrOrFalsy] at hs
        exact absurd hs ht
  · rw [if_neg ht]
    simp [exOk]

theorem dateErrs_exOk (today : Nat) (d : Data)
    (hs : pyStrOrFalsy (pyGetD d .session_date) = true) :
    exOk (dateErrs today d) = true := by
  unfold dateErrs
  by_cases ht : pyTruthy (pyGetD d .session_date)
  · rw [if_pos ht]
    cases hv : pyGetD d .session_date with
    | vStr s => cases hp : parseYmd s <;> simp [hp, exOk]
    | vNone => rw [hv] at ht; simp [pyTruthy] at ht
    | vInt n =>
        rw [hv] at ht hs
        simp [pyTruthy] at ht
        simp [pyStrOrFalsy] at hs
        exact absurd hs ht
  · rw [if_neg ht]
    simp [exOk]

theorem feedbackErrs_exOk (d : Data)
    (hs : pyStrOrFalsy (pyGetD d .teacher_feedback) = true) :
    exOk (feedbackErrs d) = true := by
  unfold feedbackErrs
  by_cases ht : pyTruthy (pyGetD d .teacher_feedback)
  · rw [if_pos ht]
    cases hv : pyGetD d .teacher_feedback with
    | vStr s => simp [pyLenE, exOk]
    | vNone => rw [hv] at ht; simp [pyTruthy] at ht
    | vInt n =>
        rw [hv] at ht hs
        simp [pyTruthy] at ht
        simp [pyStrOrFalsy] at hs
        exact absurd hs ht
  · rw [if_neg ht]
    simp [exOk]

/-- C2 (amended): the validator returns a message list without raising
for every mapping whose school_name, session_type, location, activator,
session_date and teacher_feedback values are each a string or falsy; a
truthy non-string in any of those fields instead raises (AttributeError
or TypeError), as the counterexample shows. -/
theorem validate_never_raises_when_typed (today : Nat) (d : Data)
    (h1 : pyStrOrFalsy (pyGetD d .school_name) = true)
    (h2 : pyStrOrFalsy (pyGetD d .session_type) = true)
    (h3 : pyStrOrFalsy (pyGetD d .location) = true)
    (h4 : pyStrOrFalsy (pyGetD d .activator) = true)
    (h5 : pyStrOrFalsy (pyGetD d .session_date) = true)
    (h6 : pyStrOrFalsy (pyGetD d .teacher_feedback) = true) :
    ∃ l, validate_session_data today d = .ok l := by
  obtain ⟨a2, e2⟩ := exists_ok_of_exOk (schoolErrs_exOk d h1)
  obtain ⟨a3, e3⟩ := exists_ok_of_exOk (typeErrs_exOk d h2)
  obtain ⟨a4, e4⟩ := exists_ok_of_exOk (locationErrs_exOk d h3)
  obtain ⟨a5, e5⟩ := exists_ok_of_exOk (activatorErrs_exOk d h4)
  obtain ⟨a11, e11⟩ := exists_ok_of_exOk (dateErrs_exOk today d h5)
  obtain ⟨a14, e14⟩ := exists_ok_of_exOk (feedbackErrs_exOk d h6)
  refine ⟨reqErrs d ++ a2 ++ a3 ++ a4 ++ a5 ++ yearErrs d ++ maleErrs d ++ femaleErrs d ++
    totalErrs d ++ durationErrs d ++ a11 ++ latErrs d ++ lngErrs d ++ a14, ?_⟩
  simp only [validate_session_data, e2, e3, e4, e5, e11, e14]

theorem valid_ok_nil_parts (today : Nat) (d : Data)
    (h : validate_session_data today d = .ok []) :
    reqErrs d = [] ∧ schoolErrs d = .ok [] ∧ typeErrs d = .ok [] ∧
    locationErrs d = .ok [] ∧ activatorErrs d = .ok [] ∧ yearErrs d = [] ∧
    maleErrs d = [] ∧ femaleErrs d = [] ∧ totalErrs d = [] ∧ durationErrs d = [] ∧
    dateErrs today d = .ok [] ∧ latErrs d = [] ∧ lngErrs d = [] ∧
    feedbackErrs d = .ok [] := by
  obtain ⟨e2, e3, e4, e5, e11, e14, hl⟩ := validate_ok_parts today d [] h
  have hh := hl.symm
  simp only [List.append_eq_nil] at hh
  obtain ⟨⟨⟨⟨⟨⟨⟨⟨⟨⟨⟨⟨⟨hr, h2⟩, h3⟩, h4⟩, h5⟩, hy⟩, hm⟩, hf⟩, ht⟩, hdu⟩, h11⟩, hla⟩, hln⟩, h14⟩ := hh
  refine ⟨hr, ?_, ?_, ?_, ?_, hy, hm, hf, ht, hdu, ?_, hla, hln, ?_⟩
  · rw [e2, h2]
  · rw [e3, h3]
  · rw [e4, h4]
  · rw [e5, h5]
  · rw [e11, h11]
  · rw [e14, h14]

theorem reqCond_false_of_nil (d : Data) (hr : reqErrs d = []) (f : FieldId)
    (hf : f ∈ requiredFields) : reqCond d f = false := by
  cases hc : reqCond d f
  · rfl
  · exfalso
    have : reqMsg f ∈ reqErrs d := List.mem_filterMap.mpr ⟨f, hf, by rw [if_pos hc]⟩
    rw [hr] at this
    simp at this

theorem truthy_of_reqCond_false (d : Data) (f : FieldId) (hc : reqCond d f = false) :
    pyTruthy (pyGetD d f) = true := by
  unfold reqCond at hc
  simp only [Bool.or_eq_false_iff, Bool.not_eq_false'] at hc
  exact hc.1

theorem present_of_truthy (d : Data) (f : FieldId)
    (ht : pyTruthy (pyGetD d f) = true) :
    ∃ v, d.get f = some v ∧ pyTruthy v = true := by
  cases hg : d.get f with
  | none =>
      unfold pyGetD at ht
      rw [hg] at ht
      simp [pyTruthy] at ht
  | some v =>
      refine ⟨v, rfl, ?_⟩
      unfold pyGetD at ht
      rw [hg] at ht
      exact ht

theorem pyGetD_eq_of_get (d : Data) (f : FieldId) (v : PyVal) (hg : d.get f = some v) :
    pyGetD d f = v := by
  unfold pyGetD
  rw [hg]
  rfl

theorem pyGetD2_eq_of_get (d : Data) (f : FieldId) (v dflt : PyVal) (hg : d.get f = some v) :
    pyGetD2 d f dflt = v := by
  unfold pyGetD2
  rw [hg]
  rfl

theorem school_strip_ok (d : Data) (hE : schoolErrs d = .ok [])
    (ht : pyTruthy (pyGetD d .school_name) = true) :
    ∃ s, pyStripE (pyGetD d .school_name) = .ok s := by
  unfold schoolErrs at hE
  rw [if_pos ht] at hE
  cases hs : pyStripE (pyGetD d .school_name) with
  | error e => rw [hs] at hE; cases hE
  | ok s => exact ⟨s, rfl⟩

theorem type_strip_ok (d : Data) (hE : typeErrs d = .ok [])
    (ht : pyTruthy (pyGetD d .session_type) = true) :
    ∃ s, pyStripE (pyGetD d .session_type) = .ok s := by
  unfold typeErrs at hE
  rw [if_pos ht] at hE
  cases hs : pyStripE (pyGetD d .session_type) with
  | error e => rw [hs] at hE; cases hE
  | ok s => exact ⟨s, rfl⟩

theorem location_strip_ok (d : Data) (hE : locationErrs d = .ok [])
    (ht : pyTruthy (pyGetD d .location) = true) :
    ∃ s, pyStripE (pyGetD d .location) = .ok s := by
  unfold locationErrs at hE
  rw [if_pos ht] at hE
  cases hs : pyStripE (pyGetD d .location) with
  | error e => rw [hs] at hE; cases hE
  | ok s => exact ⟨s, rfl⟩

theorem activator_strip_ok (d : Data) (hE : activatorErrs d = .ok [])
    (ht : pyTruthy (pyGetD d .activator) = true) :
    ∃ s, pyStripE (pyGetD d .activator) = .ok s := by
  unfold activatorErrs at hE
  rw [if_pos ht] at hE
  cases hs : pyStripE (pyGetD d .activator) with
  | error e => rw [hs] at hE; cases hE
  | ok s => exact ⟨s, rfl⟩

theorem feedback_strip_ok (d : Data) (hE : feedbackErrs d = .ok [])
    (ht : pyTruthy (pyGetD d .teacher_feedback) = true) :
    ∃ s, pyStripE (pyGetD d .teacher_feedback) = .ok s := by
  unfold feedbackErrs at hE
  rw [if_pos ht] at hE
  cases hv : pyGetD d .teacher_feedback with
  | vStr s => exact ⟨_, rfl⟩
  | vNone => rw [hv] at hE; simp [pyLenE] at hE
  | vInt n => rw [hv] at hE; simp [pyLenE] at hE

theorem male_parse_ok (d : Data) (hm : maleErrs d = []) :
    ∃ m, pyIntOpt (pyGetD2 d .male_participants (.vInt 0)) = some m := by
  cases hp : pyIntOpt (pyGetD2 d .male_participants (.vInt 0)) with
  | some m => exact ⟨m, rfl⟩
  | none => rw [maleErrs_of_none d hp] at hm; cases hm

theorem female_parse_ok (d : Data) (hm : femaleErrs d = []) :
    ∃ m, pyIntOpt (pyGetD2 d .female_participants (.vInt 0)) = some m := by
  cases hp : pyIntOpt (pyGetD2 d .female_participants (.vInt 0)) with
  | some m => exact ⟨m, rfl⟩
  | none => rw [femaleErrs_of_none d hp] at hm; cases hm

theorem duration_parse_ok (d : Data) (hm : durationErrs d = []) :
    ∃ m, pyIntOpt (pyGetD2 d .session_duration (.vInt 0)) = some m := by
  cases hp : pyIntOpt (pyGetD2 d .session_duration (.vInt 0)) with
  | some m => exact ⟨m, rfl⟩
  | none => unfold durationErrs at hm; simp only [hp] at hm; cases hm

theorem lat_parse_ok (d : Data) (hl : latErrs d = [])
    (ht : pyTruthy (pyGetD d .latitude) = true) :
    ∃ x, pyFloatOpt (pyGetD d .latitude) = some x := by
  unfold latErrs at hl
  rw [if_pos ht] at hl
  cases hp : pyFloatOpt (pyGetD d .latitude) with
  | some x => exact ⟨x, rfl⟩
  | none => simp only [hp] at hl; cases hl

theorem lng_parse_ok (d : Data) (hl : lngErrs d = [])
    (ht : pyTruthy (pyGetD d .longitude) = true) :
    ∃ x, pyFloatOpt (pyGetD d .longitude) = some x := by
  unfold lngErrs at hl
  rw [if_pos ht] at hl
  cases hp : pyFloatOpt (pyGetD d .longitude) with
  | some x => exact ⟨x, rfl⟩
  | none => simp only [hp] at hl; cases hl

theorem rowOfData_ok_of_valid (today : Nat) (d : Data)
    (h : validate_session_data today d = .ok []) (newId : Nat) (created : String) :
    ∃ row, rowOfData d newId created = .ok row := by
  obtain ⟨hreq, e2, e3, e4, e5, hy, hm, hf, htot, hdu, e11, hla, hln, e14⟩ :=
    valid_ok_nil_parts today d h
  have t1 := truthy_of_reqCond_false d _ (reqCond_false_of_nil d hreq .school_name (by decide))
  have t2 := truthy_of_reqCond_false d _ (reqCond_false_of_nil d hreq .session_type (by decide))
  have t3 := truthy_of_reqCond_false d _ (reqCond_false_of_nil d hreq .location (by decide))
  have t4 := truthy_of_reqCond_false d _ (reqCond_false_of_nil d hreq .activator (by decide))
  have t5 := truthy_of_reqCond_false d _ (reqCond_false_of_nil d hreq .year_group (by decide))
  have t6 := truthy_of_reqCond_false d _ (reqCond_false_of_nil d hreq .male_participants (by decide))
  have t7 := truthy_of_reqCond_false d _ (reqCond_false_of_nil d hreq .female_participants (by decide))
  have t8 := truthy_of_reqCond_false d _ (reqCond_false_of_nil d hreq .session_date (by decide))
  have t9 := truthy_of_reqCond_false d _ (reqCond_false_of_nil d hreq .session_duration (by decide))
  obtain ⟨v1, g1, -⟩ := present_of_truthy d .school_name t1
  obtain ⟨v2, g2, -⟩ := present_of_truthy d .session_type t2
  obtain ⟨v3, g3, -⟩ := present_of_truthy d .location t3
  obtain ⟨v4, g4, -⟩ := present_of_truthy d .activator t4
  obtain ⟨v5, g5, -⟩ := present_of_truthy d .year_group t5
  obtain ⟨v6, g6, -⟩ := present_of_truthy d .male_participants t6
  obtain ⟨v7, g7, -⟩ := present_of_truthy d .female_participants t7
  obtain ⟨v8, g8, -⟩ := present_of_truthy d .session_date t8
  obtain ⟨v9, g9, -⟩ := present_of_truthy d .session_duration t9
  obtain ⟨s1, hs1⟩ := school_strip_ok d e2 t1
  obtain ⟨s2, hs2⟩ := type_strip_ok d e3 t2
  obtain ⟨s3, hs3⟩ := location_strip_ok d e4 t3
  obtain ⟨s4, hs4⟩ := activator_strip_ok d e5 t4
  rw [pyGetD_eq_of_get d .school_name v1 g1] at hs1
  rw [pyGetD_eq_of_get d .session_type v2 g2] at hs2
  rw [pyGetD_eq_of_get d .location v3 g3] at hs3
  rw [pyGetD_eq_of_get d .activator v4 g4] at hs4
  obtain ⟨mI, hmI⟩ := male_parse_ok d hm
  obtain ⟨fI, hfI⟩ := female_parse_ok d hf
  obtain ⟨dI, hdI⟩ := duration_parse_ok d hdu
  rw [pyGetD2_eq_of_get d .male_participants v6 (.vInt 0) g6] at hmI
  rw [pyGetD2_eq_of_get d .female_participants v7 (.vInt 0) g7] at hfI
  rw [pyGetD2_eq_of_get d .session_duration v9 (.vInt 0) g9] at hdI
  have f1 : d.school_name = some v1 := g1
  have f2 : d.session_type = some v2 := g2
  have f3 : d.location = some v3 := g3
  have f4 : d.activator = some v4 := g4
  have f5 : d.year_group = some v5 := g5
  have f6 : d.male_participants = some v6 := g6
  have f7 : d.female_participants = some v7 := g7
  have f8 : d.session_date = some v8 := g8
  have f9 : d.session_duration = some v9 := g9
  have hFB : ∃ fb, (if pyTruthy (pyGetD d .teacher_feedback) then
      (pyStripE (pyGetD2 d .teacher_feedback (.vStr ""))).map some
    else .ok none : Except PyErr (Option String)) = .ok fb := by
    by_cases tf : pyTruthy (pyGetD d .teacher_feedback)
    · obtain ⟨vF, gF, -⟩ := present_of_truthy d .teacher_feedback tf
      obtain ⟨sF, hsF⟩ := feedback_strip_ok d e14 tf
      rw [if_pos tf, pyGetD2_eq_of_get d .teacher_feedback vF (.vStr "") gF]
      rw [pyGetD_eq_of_get d .teacher_feedback vF gF] at hsF
      rw [hsF]
      exact ⟨some sF, rfl⟩
    · rw [if_neg tf]
      exact ⟨none, rfl⟩
  have hLA : ∃ la, (if pyTruthy (pyGetD d .latitude) then
      match pyFloatOpt (pyGetD d .latitude) with
      | some x => .ok (some x)
      | none => .error .valueError
    else .ok none : Except PyErr (Option Rat)) = .ok la := by
    by_cases tl : pyTruthy (pyGetD d .latitude)
    · obtain ⟨x, hx⟩ := lat_parse_ok d hla tl
      rw [if_pos tl, hx]
      exact ⟨some x, rfl⟩
    · rw [if_neg tl]
      exact ⟨none, rfl⟩
  have hLN : ∃ lo, (if pyTruthy (pyGetD d .longitude) then
      match pyFloatOpt (pyGetD d .longitude) with
      | some x => .ok (some x)
      | none => .error .valueError
    else .ok none : Except PyErr (Option Rat)) = .ok lo := by
    by_cases tl : pyTruthy (pyGetD d .longitude)
    · obtain ⟨x, hx⟩ := lng_parse_ok d hln tl
      rw [if_pos tl, hx]
      exact ⟨some x, rfl⟩
    · rw [if_neg tl]
      exact ⟨none, rfl⟩
  obtain ⟨fb, hfb⟩ := hFB
  obtain ⟨la, hlat2⟩ := hLA
  obtain ⟨lo, hlng2⟩ := hLN
  refine ⟨⟨newId, s1, s2, s3, s4, pyStr v5, mI, fI, fb, pyStr v8, dI, created, la, lo⟩, ?_⟩
  simp only [rowOfData, f1, hs1, f2, hs2, f3, hs3, f4, hs4, f5, f6, hmI, f7, hfI, hfb, f8,
    f9, hdI, hlat2, hlng2]

/-- C4 (amended): on every non-empty payload whose validation returns a
non-empty message list, create persists nothing and reports exactly the
collected messages verbatim; on every payload whose validation returns
the empty list, exactly one row is inserted and the new identifier
reported.  The empty payload short-circuits before validation, as the
counterexample shows. -/
theorem create_session_all_or_nothing (today : Nat) (d : Data) (created : String) (w : World)
    (es : List String) (hv : validate_session_data today d = .ok es) :
    (dataNonempty d = true → es ≠ [] → create_session today d created w = (.invalid es, w)) ∧
    (es = [] → ∃ row, create_session today d created w =
       (.created w.nextSessionId,
        { w with sessions := w.sessions ++ [row], nextSessionId := w.nextSessionId + 1 })) := by
  constructor
  · intro hne hes
    have hf : es.isEmpty = false := by
      cases es with
      | nil => exact absurd rfl hes
      | cons a l => rfl
    simp [create_session, hne, hv, hf]
  · intro hnil
    subst hnil
    have t1 := truthy_of_reqCond_false d _
      (reqCond_false_of_nil d (valid_ok_nil_parts today d hv).1 .school_name (by decide))
    obtain ⟨v1, g1, -⟩ := present_of_truthy d .school_name t1
    have hd : dataNonempty d = true := by
      have hg : d.school_name = some v1 := g1
      unfold dataNonempty
      rw [hg]
      simp
    obtain ⟨row, hrow⟩ := rowOfData_ok_of_valid today d hv w.nextSessionId created
    exact ⟨row, by simp [create_session, hd, hv, hrow]⟩

def c2data : Data := { school_name := some (.vInt 5) }

/-- C2 counterexample: a mapping carrying the number 5 under school_name
makes the validator raise AttributeError (strip on an int), rather than
return a message list. -/
theorem validate_raises_cex :
    validate_session_data 739722 c2data = .error .attributeError := by decide

def c2wdata : Data :=
  { school_name := some (.vStr "Kia Ora School"), session_type := some (.vInt 0),
    male_participants := some (.vStr "abc"), year_group := some (.vInt 7),
    latitude := some (.vStr "xyz") }

/-- C2 witness: the amended totality statement applied to a payload with
string and falsy text fields and a malformed numeric field. -/
theorem validate_never_raises_when_typed_witness :
    ∃ l, validate_session_data 739722 c2wdata = .ok l :=
  validate_never_raises_when_typed 739722 c2wdata (by decide) (by decide) (by decide)
    (by decide) (by decide) (by decide)

def c4msgs : List String :=
  ["School Name is required", "Session Type is required", "Location is required",
   "Activator is required", "Year Group is required", "Male Participants is required",
   "Female Participants is required", "Session Date is required",
   "Session Duration is required", "Total participants must be greater than 0",
   "Session duration must be greater than 0 minutes"]

/-- C4 counterexample: the empty mapping makes validation return eleven
messages, yet create responds with the single no-data-provided message
instead of those messages. -/
theorem create_empty_payload_cex :
    create_session 739722 ({} : Data) "2025-06-15 10:00:00" ({} : World) =
      (.invalid ["No data provided"], ({} : World)) ∧
    validate_session_data 739722 ({} : Data) = .ok c4msgs ∧
    ¬(c4msgs = ["No data provided"]) := by
  refine ⟨by decide, by decide, by decide⟩

def c4wdata : Data := { school_name := some (.vStr "Hi") }

def c4wmsgs : List String :=
  ["Session Type is required", "Location is required", "Activator is required",
   "Year Group is required", "Male Participants is required",
   "Female Participants is required", "Session Date is required",
   "Session Duration is required", "Total participants must be greater than 0",
   "Session duration must be greater than 0 minutes"]

/-- C4 witness: the all-or-nothing statement applied to a non-empty
payload that fails validation. -/
theorem create_session_all_or_nothing_witness :
    create_session 739722 c4wdata "2025-06-15 10:00:00" ({} : World) =
      (.invalid c4wmsgs, ({} : World)) :=
  (create_session_all_or_nothing 739722 c4wdata "2025-06-15 10:00:00" ({} : World) c4wmsgs
    (by decide)).1 (by decide) (by decide)

def c5data : Data := { male_participants := some (.vInt 0) }

def c5msgs : List String :=
  ["School Name is required", "Session Type is required", "Location is required",
   "Activator is required", "Year Group is required", "Male Participants is required",
   "Female Participants is required", "Session Date is required",
   "Session Duration is required", "Total participants must be greater than 0",
   "Session duration must be greater than 0 minutes"]

/-- C5 counterexample: male_participants carrying the number 0 is
present and its string form is the non-blank text 0, yet the
field-is-required message is emitted, because 0 is falsy. -/
theorem required_message_zero_cex :
    validate_session_data 739722 c5data = .ok c5msgs ∧
    "Male Participants is required" ∈ c5msgs ∧
    c5data.male_participants = some (.vInt 0) ∧
    ¬(pyStripS (pyStr (.vInt 0)) = "") := by
  refine ⟨by decide, by decide, by decide, by decide⟩

/-- C5 witness: the required-message statement applied to the payload of
the counterexample. -/
theorem required_field_messages_witness :
    (∃ rest, c5msgs = reqErrs c5data ++ rest) ∧
    (∀ f ∈ requiredFields, (reqMsg f ∈ c5msgs ↔ reqCond c5data f = true)) :=
  required_field_messages 739722 c5data c5msgs (by decide)

def c6data : Data :=
  { male_participants := some (.vStr "abc"), female_participants := some (.vInt 5) }

def c6msgs : List String :=
  ["School Name is required", "Session Type is required", "Location is required",
   "Activator is required", "Year Group is required", "Session Date is required",
   "Session Duration is required", "Male participants must be a valid number",
   "Session duration must be greater than 0 minutes"]

/-- C6 witness: the count statement applied to a payload whose male
count is the unparseable text abc. -/
theorem participant_count_validation_witness :
    c6msgs.count "Male participants must be a valid number" = 1 ∧
    "Male participants cannot be negative" ∉ c6msgs ∧
    "Male participants seems too high (max 1000)" ∉ c6msgs :=
  (participant_count_validation 739722 c6data c6msgs (by decide)).1 (by decide)
